import Mathlib

/-!
# rcloud Terraform provider: VM resource reconciliation

A shallow embedding of `internal/provider/client.go` and
`internal/provider/resource_vm.go` of the rcloud Terraform provider.

* Go `error` values are modelled by their message (`GoError`).
* `int64` values are integers; arithmetic that may overflow is wrapped
  explicitly with `wrapInt64`.
* The HTTP transport, the JSON codec and the local file system are library
  code; they are taken as parameters (`Runtime`).  The remote control plane is
  an explicit world state `σ` threaded through every round trip.
* Every call a resource method makes on `r.client`, every `tflog` record and
  every `time.Sleep` is recorded, in program order, in a trace of `Event`s.
-/

namespace Rcloud

/-! ## Go values -/

/-- Go `error`: the only observable part is the text returned by `Error()`. -/
structure GoError where
  msg : String
deriving DecidableEq, Repr

/-- Two's-complement wrap of an integer into the `int64` range. -/
def wrapInt64 (x : Int) : Int :=
  (x + 2 ^ 63) % 2 ^ 64 - 2 ^ 63

/-- Membership in the `int64` range. -/
def isInt64 (x : Int) : Prop :=
  -(2 ^ 63) ≤ x ∧ x < 2 ^ 63

/-! ## Framework values (`types.String`, `types.Int64`, diagnostics) -/

/-- Framework `types.String`: null, unknown or a known value. -/
inductive TString where
  | null
  | unknown
  | value (s : String)
deriving DecidableEq, Repr

/-- `types.String.IsNull`. -/
def TString.IsNull : TString → Bool
  | .null => true
  | _ => false

/-- `types.String.ValueString`: the known value, else the empty string. -/
def TString.ValueString : TString → String
  | .value s => s
  | _ => ""

/-- Framework `types.Int64`: null, unknown or a known value. -/
inductive TInt64 where
  | null
  | unknown
  | value (v : Int)
deriving DecidableEq, Repr

/-- `types.Int64.ValueInt64`: the known value, else zero. -/
def TInt64.ValueInt64 : TInt64 → Int
  | .value v => v
  | _ => 0

/-- Severity of a framework diagnostic. -/
inductive Severity where
  | error
  | warning
deriving DecidableEq, Repr

/-- Framework diagnostic (`diag.Diagnostic`). -/
structure Diagnostic where
  severity : Severity
  summary : String
  detail : String
deriving DecidableEq, Repr

/-- `Diagnostics.AddError` builds an error-severity diagnostic. -/
def errorDiagnostic (summary detail : String) : Diagnostic :=
  ⟨Severity.error, summary, detail⟩

/-- `Diagnostics.HasError`. -/
def HasError (ds : List Diagnostic) : Bool :=
  ds.any fun d => d.severity == Severity.error

/-! ## client.go: wire types -/

/-- `VM` represents a virtual machine. -/
structure VM where
  ID : String
  Name : String
  State : String
  VCPUs : Int
  MemoryMB : Int
  IPAddress : String
deriving DecidableEq, Repr

/-- `CreateVMRequest` is the request to create a VM. -/
structure CreateVMRequest where
  Name : String
  VCPUs : Int
  MemoryMB : Int
  BaseImage : String
  RootDiskGB : Int
  SSHUser : Option String
  SSHPublicKey : Option String
deriving DecidableEq, Repr

/-- `CreateVMResponse` is the response from creating a VM. -/
structure CreateVMResponse where
  ID : String
  Name : String
  State : String
deriving DecidableEq, Repr

/-- An outgoing HTTP request as built by `http.NewRequest` and `Header.Set`. -/
structure HTTPRequest where
  Method : String
  URL : String
  Header : List (String × String)
  Body : Option String
deriving DecidableEq, Repr

/-- The part of an HTTP response the client looks at. -/
structure HTTPResponse where
  StatusCode : Int
  Body : String
deriving DecidableEq, Repr

/-- `http.StatusOK`. -/
def StatusOK : Int := 200

/-- `http.StatusCreated`. -/
def StatusCreated : Int := 201

/-- `http.StatusNotFound`. -/
def StatusNotFound : Int := 404

/-- Library code the provider runs on, over a remote world of type `σ`:
`http.NewRequest` (its error, if any, for a method and URL), the transport
`client.Do`, `json.Marshal`, the two JSON decoders and `os.ReadFile`. -/
structure Runtime (σ : Type) where
  NewRequest : String → String → Option GoError
  Do : HTTPRequest → σ → Except GoError HTTPResponse × σ
  Marshal : CreateVMRequest → Except GoError String
  DecodeCreateVMResponse : String → Except GoError CreateVMResponse
  DecodeVM : String → Except GoError VM
  ReadFile : String → Except GoError String

/-- `APIClient` is the HTTP client for the rcloud API. -/
structure APIClient where
  Endpoint : String
  Token : String
  SSHUser : String
  SSHPublicKeyFile : String
deriving DecidableEq, Repr

/-- The bearer-token header set on every request when a token is configured. -/
def APIClient.authHeader (c : APIClient) : List (String × String) :=
  if c.Token ≠ "" then [("Authorization", "Bearer " ++ c.Token)] else []

/-- `fmt.Errorf("API returned status %d: %s", resp.StatusCode, string(bodyBytes))`. -/
def statusError (resp : HTTPResponse) : GoError :=
  ⟨"API returned status " ++ toString resp.StatusCode ++ ": " ++ resp.Body⟩

/-- `APIClient.CreateVM` creates a new VM. -/
def APIClient.CreateVM {σ : Type} (rt : Runtime σ) (c : APIClient)
    (req : CreateVMRequest) (s : σ) : Except GoError CreateVMResponse × σ :=
  match rt.Marshal req with
  | .error err => (.error ⟨"failed to marshal request: " ++ err.msg⟩, s)
  | .ok body =>
    match rt.NewRequest "POST" (c.Endpoint ++ "/api/v1/vms") with
    | some err => (.error ⟨"failed to create request: " ++ err.msg⟩, s)
    | none =>
      let httpReq : HTTPRequest :=
        ⟨"POST", c.Endpoint ++ "/api/v1/vms",
          [("Content-Type", "application/json")] ++ c.authHeader, some body⟩
      match rt.Do httpReq s with
      | (.error err, s1) => (.error ⟨"failed to send request: " ++ err.msg⟩, s1)
      | (.ok resp, s1) =>
        if resp.StatusCode ≠ StatusCreated then
          (.error (statusError resp), s1)
        else
          match rt.DecodeCreateVMResponse resp.Body with
          | .error err => (.error ⟨"failed to decode response: " ++ err.msg⟩, s1)
          | .ok createResp => (.ok createResp, s1)

/-- `APIClient.GetVM` retrieves a VM by ID. -/
def APIClient.GetVM {σ : Type} (rt : Runtime σ) (c : APIClient)
    (id : String) (s : σ) : Except GoError VM × σ :=
  match rt.NewRequest "GET" (c.Endpoint ++ "/api/v1/vms/" ++ id) with
  | some err => (.error ⟨"failed to create request: " ++ err.msg⟩, s)
  | none =>
    let httpReq : HTTPRequest :=
      ⟨"GET", c.Endpoint ++ "/api/v1/vms/" ++ id, c.authHeader, none⟩
    match rt.Do httpReq s with
    | (.error err, s1) => (.error ⟨"failed to send request: " ++ err.msg⟩, s1)
    | (.ok resp, s1) =>
      if resp.StatusCode = StatusNotFound then
        (.error ⟨"VM not found"⟩, s1)
      else if resp.StatusCode ≠ StatusOK then
        (.error (statusError resp), s1)
      else
        match rt.DecodeVM resp.Body with
        | .error err => (.error ⟨"failed to decode response: " ++ err.msg⟩, s1)
        | .ok vm => (.ok vm, s1)

/-- `APIClient.DeleteVM` deletes a VM; `none` is Go's `nil` error. -/
def APIClient.DeleteVM {σ : Type} (rt : Runtime σ) (c : APIClient)
    (id : String) (s : σ) : Option GoError × σ :=
  match rt.NewRequest "DELETE" (c.Endpoint ++ "/api/v1/vms/" ++ id) with
  | some err => (some ⟨"failed to create request: " ++ err.msg⟩, s)
  | none =>
    let httpReq : HTTPRequest :=
      ⟨"DELETE", c.Endpoint ++ "/api/v1/vms/" ++ id, c.authHeader, none⟩
    match rt.Do httpReq s with
    | (.error err, s1) => (some ⟨"failed to send request: " ++ err.msg⟩, s1)
    | (.ok resp, s1) =>
      if resp.StatusCode ≠ StatusOK then
        (some (statusError resp), s1)
      else
        (none, s1)

/-- `APIClient.StartVM` starts a VM. -/
def APIClient.StartVM {σ : Type} (rt : Runtime σ) (c : APIClient)
    (id : String) (s : σ) : Option GoError × σ :=
  match rt.NewRequest "POST" (c.Endpoint ++ "/api/v1/vms/" ++ id ++ "/start") with
  | some err => (some ⟨"failed to create request: " ++ err.msg⟩, s)
  | none =>
    let httpReq : HTTPRequest :=
      ⟨"POST", c.Endpoint ++ "/api/v1/vms/" ++ id ++ "/start", c.authHeader, none⟩
    match rt.Do httpReq s with
    | (.error err, s1) => (some ⟨"failed to send request: " ++ err.msg⟩, s1)
    | (.ok resp, s1) =>
      if resp.StatusCode ≠ StatusOK then
        (some (statusError resp), s1)
      else
        (none, s1)

/-- `APIClient.StopVM` stops a VM. -/
def APIClient.StopVM {σ : Type} (rt : Runtime σ) (c : APIClient)
    (id : String) (s : σ) : Option GoError × σ :=
  match rt.NewRequest "POST" (c.Endpoint ++ "/api/v1/vms/" ++ id ++ "/stop") with
  | some err => (some ⟨"failed to create request: " ++ err.msg⟩, s)
  | none =>
    let httpReq : HTTPRequest :=
      ⟨"POST", c.Endpoint ++ "/api/v1/vms/" ++ id ++ "/stop", c.authHeader, none⟩
    match rt.Do httpReq s with
    | (.error err, s1) => (some ⟨"failed to send request: " ++ err.msg⟩, s1)
    | (.ok resp, s1) =>
      if resp.StatusCode ≠ StatusOK then
        (some (statusError resp), s1)
      else
        (none, s1)

/-! ## resource_vm.go: data model and schema -/

/-- `VMResourceModel` describes the resource data model. -/
structure VMResourceModel where
  ID : TString
  Name : TString
  VCPUs : TInt64
  MemoryGB : TInt64
  BaseImage : TString
  RootDiskGB : TInt64
  SSHUser : TString
  SSHPublicKeyFile : TString
  State : TString
  IPAddress : TString
deriving DecidableEq, Repr

/-- Plan modifiers used by the VM resource schema. -/
inductive PlanModifier where
  | UseStateForUnknown
  | RequiresReplace
deriving DecidableEq, Repr

/-- Value type of a schema attribute. -/
inductive AttrType where
  | string
  | int64
deriving DecidableEq, Repr

/-- One entry of `schema.Schema.Attributes`. -/
structure Attribute where
  Name : String
  Kind : AttrType
  Required : Bool
  Optional : Bool
  Computed : Bool
  PlanModifiers : List PlanModifier
deriving DecidableEq, Repr

/-- `VMResource.Schema`: the attribute table, in source order. -/
def Schema : List Attribute :=
  [ ⟨"id", .string, false, false, true, [.UseStateForUnknown]⟩,
    ⟨"name", .string, true, false, false, [.RequiresReplace]⟩,
    ⟨"vcpus", .int64, true, false, false, [.RequiresReplace]⟩,
    ⟨"memory_gb", .int64, true, false, false, [.RequiresReplace]⟩,
    ⟨"base_image", .string, true, false, false, [.RequiresReplace]⟩,
    ⟨"root_disk_gb", .int64, true, false, false, [.RequiresReplace]⟩,
    ⟨"ssh_user", .string, false, true, false, [.RequiresReplace]⟩,
    ⟨"ssh_public_key_file", .string, false, true, false, [.RequiresReplace]⟩,
    ⟨"state", .string, false, false, true, []⟩,
    ⟨"ip_address", .string, false, false, true, []⟩ ]

/-- A framework attribute value of either schema type. -/
inductive AttrValue where
  | str (v : TString)
  | int (v : TInt64)
deriving DecidableEq, Repr

/-- The value a model holds for a schema attribute, by its `tfsdk` tag. -/
def VMResourceModel.attr (m : VMResourceModel) (name : String) : Option AttrValue :=
  if name = "id" then some (.str m.ID)
  else if name = "name" then some (.str m.Name)
  else if name = "vcpus" then some (.int m.VCPUs)
  else if name = "memory_gb" then some (.int m.MemoryGB)
  else if name = "base_image" then some (.str m.BaseImage)
  else if name = "root_disk_gb" then some (.int m.RootDiskGB)
  else if name = "ssh_user" then some (.str m.SSHUser)
  else if name = "ssh_public_key_file" then some (.str m.SSHPublicKeyFile)
  else if name = "state" then some (.str m.State)
  else if name = "ip_address" then some (.str m.IPAddress)
  else none

/-! ## Observable events of a resource operation -/

/-- `tflog` levels. -/
inductive LogLevel where
  | trace
  | debug
  | info
  | warn
  | error
deriving DecidableEq, Repr

/-- A value of a structured log field. -/
inductive LogValue where
  | str (s : String)
  | bool (b : Bool)
  | int (n : Int)
deriving DecidableEq, Repr

/-- What a resource operation does besides returning: calls on `r.client`,
`tflog` records and `time.Sleep`, in program order. -/
inductive Event where
  | CreateVM (req : CreateVMRequest)
  | GetVM (id : String)
  | DeleteVM (id : String)
  | StartVM (id : String)
  | StopVM (id : String)
  | Log (level : LogLevel) (message : String) (fields : List (String × LogValue))
  | Sleep (nanoseconds : Int)
deriving DecidableEq, Repr

/-- Whether an event is a call on the remote control-plane client. -/
def Event.isCall : Event → Bool
  | .CreateVM _ => true
  | .GetVM _ => true
  | .DeleteVM _ => true
  | .StartVM _ => true
  | .StopVM _ => true
  | _ => false

/-- Whether an event is a `GetVM` call. -/
def Event.isGetVM : Event → Bool
  | .GetVM _ => true
  | _ => false

/-- Whether an event is a `DeleteVM` call. -/
def Event.isDeleteVM : Event → Bool
  | .DeleteVM _ => true
  | _ => false

/-- Whether an event is a `time.Sleep`. -/
def Event.isSleep : Event → Bool
  | .Sleep _ => true
  | _ => false

/-- The remote calls of a trace, in order. -/
def calls (tr : List Event) : List Event :=
  tr.filter Event.isCall

/-- Result of running an operation: its value, its trace and the world after. -/
structure Run (α σ : Type) where
  value : α
  trace : List Event
  world : σ

/-! ## resource_vm.go: lifecycle operations

A request carries what the framework decoded for the operation: the model
(`req.Plan.Get` or `req.State.Get`) and the diagnostics of that decoding.
A response carries the diagnostics and the state written by
`resp.State.Set` (`none` when the operation never writes it).
`resp.State.Set` of a `VMResourceModel` is taken to report no diagnostics. -/

/-- `resource.CreateRequest`, as seen through `req.Plan.Get`. -/
structure CreateRequest where
  PlanDiags : List Diagnostic
  Plan : VMResourceModel

/-- `resource.CreateResponse`. -/
structure CreateResponse where
  Diagnostics : List Diagnostic
  State : Option VMResourceModel
deriving DecidableEq, Repr

/-- `resource.ReadRequest`, as seen through `req.State.Get`. -/
structure ReadRequest where
  StateDiags : List Diagnostic
  State : VMResourceModel

/-- `resource.ReadResponse`. -/
structure ReadResponse where
  Diagnostics : List Diagnostic
  State : Option VMResourceModel
deriving DecidableEq, Repr

/-- `resource.UpdateRequest`, as seen through `req.Plan.Get`. -/
structure UpdateRequest where
  PlanDiags : List Diagnostic
  Plan : VMResourceModel
  State : VMResourceModel

/-- `resource.UpdateResponse`. -/
structure UpdateResponse where
  Diagnostics : List Diagnostic
  State : Option VMResourceModel
deriving DecidableEq, Repr

/-- `resource.DeleteRequest`, as seen through `req.State.Get`. -/
structure DeleteRequest where
  StateDiags : List Diagnostic
  State : VMResourceModel

/-- `resource.DeleteResponse`. -/
structure DeleteResponse where
  Diagnostics : List Diagnostic
deriving DecidableEq, Repr

/-- `maxRetries := 300`: five minutes in total. -/
def maxRetries : Nat := 300

/-- `retryDelay := 1 * time.Second`, in nanoseconds. -/
def retryDelay : Int := 1 * 1000000000

/-- SSH user of the create request: resource > provider > none. -/
def sshUserOf (c : APIClient) (data : VMResourceModel) : Option String :=
  if !data.SSHUser.IsNull then some data.SSHUser.ValueString
  else if c.SSHUser ≠ "" then some c.SSHUser
  else none

/-- SSH public key file to read: resource > provider > none (empty). -/
def sshPublicKeyFileOf (c : APIClient) (data : VMResourceModel) : String :=
  if !data.SSHPublicKeyFile.IsNull then data.SSHPublicKeyFile.ValueString
  else if c.SSHPublicKeyFile ≠ "" then c.SSHPublicKeyFile
  else ""

/-- The `createReq` literal of `VMResource.Create`. -/
def createReqOf (data : VMResourceModel) (sshUser sshPublicKey : Option String) :
    CreateVMRequest where
  Name := data.Name.ValueString
  VCPUs := data.VCPUs.ValueInt64
  MemoryMB := wrapInt64 (data.MemoryGB.ValueInt64 * 1024)
  BaseImage := data.BaseImage.ValueString
  RootDiskGB := data.RootDiskGB.ValueInt64
  SSHUser := sshUser
  SSHPublicKey := sshPublicKey

/-- How the wait loop of `VMResource.Create` ends: `acquired vm` is the `break`
with `ipAcquired = true` and `vm` the last response, `failed err` is the
`return` on a `GetVM` error, `exhausted` is leaving the loop with
`ipAcquired = false`. -/
inductive PollOutcome where
  | acquired (vm : VM)
  | failed (err : GoError)
  | exhausted
deriving DecidableEq, Repr

/-- The wait loop `for i := 0; i < maxRetries; i++` of `VMResource.Create`,
from loop index `i` on. -/
def pollLoop {σ : Type} (rt : Runtime σ) (c : APIClient) (id : String)
    (maxRetries : Nat) (i : Nat) (s : σ) : Run PollOutcome σ :=
  if i < maxRetries then
    match c.GetVM rt id s with
    | (.error err, s1) => ⟨.failed err, [.GetVM id], s1⟩
    | (.ok vm, s1) =>
      if vm.IPAddress ≠ "" then
        ⟨.acquired vm,
          [.GetVM id,
           .Log .info "VM acquired IP address"
             [("ip", .str vm.IPAddress), ("attempts", .int (i + 1)),
              ("elapsed_seconds", .int (i + 1))]],
          s1⟩
      else
        let progress : List Event :=
          if i > 0 ∧ i % 30 = 0 then
            [.Log .info "Still waiting for VM IP address"
              [("elapsed_seconds", .int i), ("max_seconds", .int maxRetries)]]
          else []
        let wait : List Event :=
          if i < maxRetries - 1 then
            [.Log .debug "Waiting for VM IP address"
              [("attempt", .int (i + 1)), ("max", .int maxRetries)],
             .Sleep retryDelay]
          else []
        let rest := pollLoop rt c id maxRetries (i + 1) s1
        ⟨rest.value, [.GetVM id] ++ progress ++ wait ++ rest.trace, rest.world⟩
  else
    ⟨.exhausted, [], s⟩
termination_by maxRetries - i

/-- The detail text of the "VM Boot Timeout" diagnostic. -/
def bootTimeoutDetail (name : String) (maxRetries : Nat) : String :=
  "VM " ++ name ++ " was created and started but did not acquire an IP address within "
    ++ toString maxRetries ++ " seconds. "
    ++ "This typically indicates a networking issue with the base image or libvirt network configuration. "
    ++ "Check that the VM has networking configured and that the libvirt default network is active."

/-- `VMResource.Create` from the `createReq` literal on: the create call, the
wait for an IP address, and the cleanup on timeout.  `diags` are the
diagnostics and `tr` the events so far. -/
def VMResource.Create.submit {σ : Type} (rt : Runtime σ) (c : APIClient)
    (data : VMResourceModel) (diags : List Diagnostic) (tr : List Event)
    (createReq : CreateVMRequest) (s : σ) : Run CreateResponse σ :=
  let tr := tr ++ [.Log .info "Creating VM"
    [("name", .str createReq.Name), ("ssh_user", .bool createReq.SSHUser.isSome),
     ("ssh_key", .bool createReq.SSHPublicKey.isSome)], .CreateVM createReq]
  match c.CreateVM rt createReq s with
  | (.error err, s1) =>
    ⟨⟨diags ++ [errorDiagnostic "Client Error"
        ("Unable to create VM, got error: " ++ err.msg)], none⟩, tr, s1⟩
  | (.ok createResp, s1) =>
    let data := { data with ID := .value createResp.ID }
    let tr := tr ++ [.Log .trace "Created VM" [("id", .str createResp.ID)]]
    let poll := pollLoop rt c data.ID.ValueString maxRetries 0 s1
    let tr := tr ++ poll.trace
    match poll.value with
    | .failed err =>
      ⟨⟨diags ++ [errorDiagnostic "Client Error"
          ("Unable to read VM after creation, got error: " ++ err.msg)], none⟩,
        tr, poll.world⟩
    | .exhausted =>
      let diags := diags ++ [errorDiagnostic "VM Boot Timeout"
        (bootTimeoutDetail data.Name.ValueString maxRetries)]
      let tr := tr ++ [.Log .warn "Attempting to delete VM due to timeout"
        [("id", .str data.ID.ValueString)], .DeleteVM data.ID.ValueString]
      match c.DeleteVM rt data.ID.ValueString poll.world with
      | (some cleanupErr, s2) =>
        ⟨⟨diags, none⟩,
          tr ++ [.Log .error "Failed to clean up VM after timeout"
            [("error", .str cleanupErr.msg)]], s2⟩
      | (none, s2) => ⟨⟨diags, none⟩, tr, s2⟩
    | .acquired vm =>
      let data := { data with State := .value vm.State, IPAddress := .value vm.IPAddress }
      ⟨⟨diags, some data⟩, tr, poll.world⟩

/-- `VMResource.Create`. -/
def VMResource.Create {σ : Type} (rt : Runtime σ) (c : APIClient)
    (req : CreateRequest) (s : σ) : Run CreateResponse σ :=
  let data := req.Plan
  let diags := req.PlanDiags
  if HasError diags then ⟨⟨diags, none⟩, [], s⟩
  else
    let sshUser := sshUserOf c data
    let sshPublicKeyFile := sshPublicKeyFileOf c data
    if sshPublicKeyFile ≠ "" then
      match rt.ReadFile sshPublicKeyFile with
      | .error err =>
        ⟨⟨diags ++ [errorDiagnostic "SSH Key Read Error"
            ("Unable to read SSH public key from " ++ sshPublicKeyFile ++ ": " ++ err.msg)],
          none⟩, [], s⟩
      | .ok keyStr =>
        VMResource.Create.submit rt c data diags
          [.Log .debug "Read SSH public key"
            [("file", .str sshPublicKeyFile), ("length", .int keyStr.utf8ByteSize)]]
          (createReqOf data sshUser (some keyStr)) s
    else
      VMResource.Create.submit rt c data diags [] (createReqOf data sshUser none) s

/-- `VMResource.Read`. -/
def VMResource.Read {σ : Type} (rt : Runtime σ) (c : APIClient)
    (req : ReadRequest) (s : σ) : Run ReadResponse σ :=
  let data := req.State
  let diags := req.StateDiags
  if HasError diags then ⟨⟨diags, none⟩, [], s⟩
  else
    match c.GetVM rt data.ID.ValueString s with
    | (.error err, s1) =>
      ⟨⟨diags ++ [errorDiagnostic "Client Error"
          ("Unable to read VM, got error: " ++ err.msg)], none⟩,
        [.GetVM data.ID.ValueString], s1⟩
    | (.ok vm, s1) =>
      let data := { data with State := .value vm.State }
      let data :=
        if vm.IPAddress ≠ "" then { data with IPAddress := .value vm.IPAddress }
        else { data with IPAddress := .null }
      ⟨⟨diags, some data⟩, [.GetVM data.ID.ValueString], s1⟩

/-- `VMResource.Update`. -/
def VMResource.Update {σ : Type} (_rt : Runtime σ) (_c : APIClient)
    (req : UpdateRequest) (s : σ) : Run UpdateResponse σ :=
  let data := req.Plan
  let diags := req.PlanDiags
  if HasError diags then ⟨⟨diags, none⟩, [], s⟩
  else ⟨⟨diags, some data⟩, [], s⟩

/-- `VMResource.Delete`. -/
def VMResource.Delete {σ : Type} (rt : Runtime σ) (c : APIClient)
    (req : DeleteRequest) (s : σ) : Run DeleteResponse σ :=
  let data := req.State
  let diags := req.StateDiags
  if HasError diags then ⟨⟨diags⟩, [], s⟩
  else
    let tr : List Event :=
      [.Log .info "Deleting VM" [("id", .str data.ID.ValueString)],
       .DeleteVM data.ID.ValueString]
    match c.DeleteVM rt data.ID.ValueString s with
    | (some err, s1) =>
      ⟨⟨diags ++ [errorDiagnostic "Client Error"
          ("Unable to delete VM, got error: " ++ err.msg)]⟩, tr, s1⟩
    | (none, s1) =>
      ⟨⟨diags⟩, tr ++ [.Log .trace "Deleted VM" [("id", .str data.ID.ValueString)]], s1⟩

/-! ## Auxiliary definitions for the statements -/

/-- The world after `n` consecutive `GetVM id` calls starting from `s`. -/
def pollState {σ : Type} (rt : Runtime σ) (c : APIClient) (id : String) : Nat → σ → σ
  | 0, s => s
  | n + 1, s => pollState rt c id n (c.GetVM rt id s).2

/-- The answer to poll attempt `n + 1`: the `GetVM id` call made after `n`
earlier ones, starting from world `s`. -/
def pollAnswer {σ : Type} (rt : Runtime σ) (c : APIClient) (id : String) (n : Nat) (s : σ) :
    Except GoError VM :=
  (c.GetVM rt id (pollState rt c id n s)).1

/-- The events of one loop iteration at index `i` whose `GetVM` answer has no
IP address. -/
def pendingEvents (id : String) (maxRetries i : Nat) : List Event :=
  [.GetVM id]
    ++ (if i > 0 ∧ i % 30 = 0 then
          [.Log .info "Still waiting for VM IP address"
            [("elapsed_seconds", .int i), ("max_seconds", .int maxRetries)]]
        else [])
    ++ (if i < maxRetries - 1 then
          [.Log .debug "Waiting for VM IP address"
            [("attempt", .int (i + 1)), ("max", .int maxRetries)],
           .Sleep retryDelay]
        else [])

/-- The events of `n` consecutive iterations without an IP address, from index `i`. -/
def pendingTrace (id : String) (maxRetries i n : Nat) : List Event :=
  (List.range' i n).flatMap (pendingEvents id maxRetries)

/-- The SSH public key `VMResource.Create` sends: the content of the resolved
key file, `none` when no file is configured, or the error of `os.ReadFile`. -/
def sshPublicKeyOf {σ : Type} (rt : Runtime σ) (c : APIClient) (data : VMResourceModel) :
    Except GoError (Option String) :=
  if sshPublicKeyFileOf c data ≠ "" then
    match rt.ReadFile (sshPublicKeyFileOf c data) with
    | .error err => .error err
    | .ok keyStr => .ok (some keyStr)
  else .ok none

/-- The events of `VMResource.Create` before the `createReq` literal. -/
def keyReadTrace (c : APIClient) (data : VMResourceModel) : Option String → List Event
  | none => []
  | some keyStr =>
    [.Log .debug "Read SSH public key"
      [("file", .str (sshPublicKeyFileOf c data)), ("length", .int keyStr.utf8ByteSize)]]

/-- The "VM Boot Timeout" diagnostic for a resource name. -/
def bootTimeoutDiagnostic (name : String) : Diagnostic :=
  errorDiagnostic "VM Boot Timeout" (bootTimeoutDetail name maxRetries)

/-- The events after the cleanup `DeleteVM` call, by its result. -/
def cleanupTrace : Option GoError → List Event
  | none => []
  | some cleanupErr =>
    [.Log .error "Failed to clean up VM after timeout" [("error", .str cleanupErr.msg)]]

/-- The `GetVM` calls of a trace, in order. -/
def getCalls (tr : List Event) : List Event :=
  tr.filter Event.isGetVM

/-- The `DeleteVM` calls of a trace, in order. -/
def deleteCalls (tr : List Event) : List Event :=
  tr.filter Event.isDeleteVM

/-! ### A scripted control plane for concrete runs -/

/-- Script of a mock control plane: the status of the create answer, the poll
attempt (counted from 1) from which an IP address is reported (`0`: never),
the poll attempt answered with status 500 (`0`: none) and the status of the
delete answer. -/
structure MockScript where
  createStatus : Int
  readyAt : Nat
  failAt : Nat
  deleteStatus : Int

/-- The mock transport and codec.  The world is the number of `GET` round
trips served so far; a `GET` body is the IP address, a `POST` body the id. -/
def mockRuntime (m : MockScript) : Runtime Nat where
  NewRequest := fun _ _ => none
  Do := fun req n =>
    if req.Method = "GET" then
      if n + 1 = m.failAt then (.ok ⟨500, "boom"⟩, n + 1)
      else (.ok ⟨200, if 1 ≤ m.readyAt ∧ m.readyAt ≤ n + 1 then "192.0.2.7" else ""⟩, n + 1)
    else if req.Method = "POST" then (.ok ⟨m.createStatus, "vm-1"⟩, n)
    else (.ok ⟨m.deleteStatus, "busy"⟩, n)
  Marshal := fun _ => .ok ""
  DecodeCreateVMResponse := fun body => .ok ⟨body, "web", "pending"⟩
  DecodeVM := fun body => .ok ⟨"vm-1", "web", "running", 2, 4096, body⟩
  ReadFile := fun _ => .error ⟨"no such file"⟩

/-- A mock client configuration without provider-level SSH defaults. -/
def mockClient : APIClient :=
  ⟨"http://rcloud.test", "", "", ""⟩

/-- A plan for a VM named `web` with 2 vCPUs, 4 GB of memory and a 20 GB disk. -/
def mockPlan : VMResourceModel :=
  ⟨.unknown, .value "web", .value 2, .value 4, .value "debian.qcow2", .value 20,
    .null, .null, .unknown, .unknown⟩

/-- The create request `VMResource.Create` builds for `mockPlan`. -/
def mockCreateReq : CreateVMRequest :=
  ⟨"web", 2, 4096, "debian.qcow2", 20, none, none⟩

/-- Whether an event is an error-level log record. -/
def Event.isErrorLog : Event → Bool
  | .Log .error _ _ => true
  | _ => false

/-- The error-level log records of a trace, in order. -/
def errorLogs (tr : List Event) : List Event :=
  tr.filter Event.isErrorLog

/-- A mock transport whose world is the status code every round trip answers
with; the body is always "detail". -/
def statusRuntime : Runtime Int where
  NewRequest := fun _ _ => none
  Do := fun _ code => (.ok ⟨code, "detail"⟩, code)
  Marshal := fun _ => .ok ""
  DecodeCreateVMResponse := fun body => .ok ⟨body, "web", "pending"⟩
  DecodeVM := fun body => .ok ⟨"vm-1", "web", "running", 2, 4096, body⟩
  ReadFile := fun _ => .error ⟨"no such file"⟩

/-! ### Field mutability -/

/-- Modelled from the spec: the verdicts of the Field Mutability Classifier of
§4.1 (`NoChange`, `InPlaceUpdatable`, `RequiresReplacement`).  The classifier
is the orchestration framework's evaluation of plan modifiers, which is not
part of the provider sources; only its policy table, `Schema`, is. -/
inductive Mutability where
  | NoChange
  | InPlaceUpdatable
  | RequiresReplacement
deriving DecidableEq, Repr

/-- Modelled from the spec: strictness of a verdict; `RequiresReplacement`
dominates (§4.1). -/
def Mutability.rank : Mutability → Nat
  | .NoChange => 0
  | .InPlaceUpdatable => 1
  | .RequiresReplacement => 2

/-- Modelled from the spec: the stricter of two verdicts (§4.1). -/
def Mutability.strictest (a b : Mutability) : Mutability :=
  if a.rank < b.rank then b else a

/-- Modelled from the spec: the per-attribute policy table of §4.1, read off the
schema: an attribute declared with the `RequiresReplace` plan modifier is
replacement-triggering when changed, any other is updatable in place. -/
def attributePolicy (a : Attribute) : Mutability :=
  if PlanModifier.RequiresReplace ∈ a.PlanModifiers then .RequiresReplacement
  else .InPlaceUpdatable

/-- The spec attributes of the schema: those the configuration sets (required
or optional), as opposed to the computed `id`, `state` and `ip_address`. -/
def specAttributes : List Attribute :=
  Schema.filter fun a => a.Required || a.Optional

/-- Modelled from the spec: the verdict for one attribute (§4.1): `NoChange`
when the prior and the proposed value agree, else the attribute's policy. -/
def classifyAttribute (prior proposed : VMResourceModel) (a : Attribute) : Mutability :=
  if prior.attr a.Name = proposed.attr a.Name then .NoChange else attributePolicy a

/-- Modelled from the spec: the Field Mutability Classifier of §4.1: the
per-attribute verdicts over the spec attributes, reduced to the strictest. -/
def classify (prior proposed : VMResourceModel) : Mutability :=
  (specAttributes.map (classifyAttribute prior proposed)).foldl Mutability.strictest .NoChange

/-- Two models carry the same spec: they agree on every spec attribute. -/
def sameSpec (prior proposed : VMResourceModel) : Prop :=
  prior.Name = proposed.Name ∧ prior.VCPUs = proposed.VCPUs
    ∧ prior.MemoryGB = proposed.MemoryGB ∧ prior.BaseImage = proposed.BaseImage
    ∧ prior.RootDiskGB = proposed.RootDiskGB ∧ prior.SSHUser = proposed.SSHUser
    ∧ prior.SSHPublicKeyFile = proposed.SSHPublicKeyFile

/-- The value of a decimal digit character. -/
def digitVal (ch : Char) : Nat := ch.toNat - 48

/-- The number a list of decimal digits denotes. -/
def decimalValue (l : List Char) : Nat :=
  l.foldl (fun acc ch => 10 * acc + digitVal ch) 0

/-- The `time.Sleep` events of a trace, in order. -/
def sleeps (tr : List Event) : List Event :=
  tr.filter Event.isSleep

/-- Scan of a trace from its end: the number of sleeps before its first
`GetVM` call, and, for each `GetVM` call in order, the number of sleeps between
that call and the next `GetVM` call (or the end of the trace). -/
def sleepScan : List Event → Nat × List Nat
  | [] => (0, [])
  | e :: tr =>
    if e.isGetVM then (0, (sleepScan tr).1 :: (sleepScan tr).2)
    else if e.isSleep then ((sleepScan tr).1 + 1, (sleepScan tr).2)
    else sleepScan tr

/-- For each poll attempt (`GetVM` call) of a trace, in order, the number of
sleeps that follow it before the next attempt or the end of the run. -/
def sleepsAfterAttempts (tr : List Event) : List Nat :=
  (sleepScan tr).2

/-! ## The wait loop -/

theorem pollState_succ_last {σ : Type} (rt : Runtime σ) (c : APIClient) (id : String)
    (n : Nat) : ∀ s : σ,
    pollState rt c id (n + 1) s = (c.GetVM rt id (pollState rt c id n s)).2 := by
  induction n with
  | zero => intro s; rfl
  | succ n ih => intro s; exact ih (c.GetVM rt id s).2

theorem pollLoop_exhausted {σ : Type} (rt : Runtime σ) (c : APIClient) (id : String)
    (M i : Nat) (s : σ) (h : M ≤ i) :
    pollLoop rt c id M i s = ⟨.exhausted, [], s⟩ := by
  rw [pollLoop, if_neg (by omega)]

theorem pollLoop_failed {σ : Type} (rt : Runtime σ) (c : APIClient) (id : String)
    (M i : Nat) (s : σ) (h : i < M) (err : GoError)
    (hget : (c.GetVM rt id s).1 = .error err) :
    pollLoop rt c id M i s = ⟨.failed err, [.GetVM id], (c.GetVM rt id s).2⟩ := by
  rw [pollLoop, if_pos h]
  rcases hg : c.GetVM rt id s with ⟨r, s1⟩
  rw [hg] at hget
  subst hget
  rfl

theorem pollLoop_acquired {σ : Type} (rt : Runtime σ) (c : APIClient) (id : String)
    (M i : Nat) (s : σ) (h : i < M) (vm : VM)
    (hget : (c.GetVM rt id s).1 = .ok vm) (hip : vm.IPAddress ≠ "") :
    pollLoop rt c id M i s =
      ⟨.acquired vm,
        [.GetVM id,
         .Log .info "VM acquired IP address"
           [("ip", .str vm.IPAddress), ("attempts", .int (i + 1)),
            ("elapsed_seconds", .int (i + 1))]],
        (c.GetVM rt id s).2⟩ := by
  rw [pollLoop, if_pos h]
  rcases hg : c.GetVM rt id s with ⟨r, s1⟩
  rw [hg] at hget
  subst hget
  simp [hip]

theorem pollLoop_pending {σ : Type} (rt : Runtime σ) (c : APIClient) (id : String)
    (M i : Nat) (s : σ) (h : i < M) (vm : VM)
    (hget : (c.GetVM rt id s).1 = .ok vm) (hip : vm.IPAddress = "") :
    pollLoop rt c id M i s =
      ⟨(pollLoop rt c id M (i + 1) (c.GetVM rt id s).2).value,
        pendingEvents id M i ++ (pollLoop rt c id M (i + 1) (c.GetVM rt id s).2).trace,
        (pollLoop rt c id M (i + 1) (c.GetVM rt id s).2).world⟩ := by
  rw [pollLoop, if_pos h]
  rcases hg : c.GetVM rt id s with ⟨r, s1⟩
  rw [hg] at hget
  subst hget
  simp [hip, pendingEvents]

/-- After `n` attempts that all answer without an IP address the loop is at
index `i + n`, in the world `pollState n s`, having emitted `pendingTrace`. -/
theorem pollLoop_pending_steps {σ : Type} (rt : Runtime σ) (c : APIClient) (id : String)
    (M : Nat) (n : Nat) : ∀ (i : Nat) (s : σ), i + n ≤ M →
    (∀ j, j < n → ∃ vm, pollAnswer rt c id j s = .ok vm ∧ vm.IPAddress = "") →
    pollLoop rt c id M i s =
      ⟨(pollLoop rt c id M (i + n) (pollState rt c id n s)).value,
        pendingTrace id M i n ++ (pollLoop rt c id M (i + n) (pollState rt c id n s)).trace,
        (pollLoop rt c id M (i + n) (pollState rt c id n s)).world⟩ := by
  induction n with
  | zero =>
    intro i s _ _
    simp [pendingTrace, pollState]
  | succ n ih =>
    intro i s hle hp
    obtain ⟨vm, hvm, hip⟩ := hp 0 (Nat.succ_pos n)
    rw [pollLoop_pending rt c id M i s (by omega) vm hvm hip]
    have hrest := ih (i + 1) (c.GetVM rt id s).2 (by omega)
      (fun j hj => hp (j + 1) (Nat.succ_lt_succ hj))
    rw [hrest]
    simp [pendingTrace, pollState, List.range'_succ, Nat.add_assoc, Nat.add_comm 1 n]

/-! ## Traces -/

@[simp] theorem calls_nil : calls [] = [] := rfl

@[simp] theorem calls_append (a b : List Event) : calls (a ++ b) = calls a ++ calls b := by
  simp [calls]

@[simp] theorem calls_cons (e : Event) (a : List Event) :
    calls (e :: a) = if e.isCall then e :: calls a else calls a := by
  simp only [calls, List.filter_cons]

theorem calls_pendingEvents (id : String) (M i : Nat) :
    calls (pendingEvents id M i) = [.GetVM id] := by
  unfold pendingEvents
  split_ifs <;> simp [Event.isCall]

theorem calls_pendingTrace (id : String) (M : Nat) (n : Nat) : ∀ i : Nat,
    calls (pendingTrace id M i n) = List.replicate n (.GetVM id) := by
  induction n with
  | zero => intro i; simp [pendingTrace]
  | succ n ih =>
    intro i
    have h := ih (i + 1)
    simp only [pendingTrace, List.range'_succ, List.flatMap_cons, calls_append,
      calls_pendingEvents] at h ⊢
    rw [h]
    rfl

theorem calls_keyReadTrace (c : APIClient) (data : VMResourceModel) (key : Option String) :
    calls (keyReadTrace c data key) = [] := by
  cases key <;> simp [keyReadTrace, Event.isCall]

/-! ## `VMResource.Create`, by scenario -/

theorem Create_eq_submit {σ : Type} (rt : Runtime σ) (c : APIClient) (req : CreateRequest)
    (s : σ) (hplan : HasError req.PlanDiags = false) (key : Option String)
    (hkey : sshPublicKeyOf rt c req.Plan = .ok key) :
    VMResource.Create rt c req s =
      VMResource.Create.submit rt c req.Plan req.PlanDiags (keyReadTrace c req.Plan key)
        (createReqOf req.Plan (sshUserOf c req.Plan) key) s := by
  unfold VMResource.Create sshPublicKeyOf at *
  simp only [hplan]
  by_cases hf : sshPublicKeyFileOf c req.Plan = ""
  · simp [hf] at hkey ⊢
    subst hkey
    rfl
  · simp only [ne_eq, hf, not_false_eq_true, if_true] at hkey ⊢
    cases hr : rt.ReadFile (sshPublicKeyFileOf c req.Plan) with
    | error e => simp [hr] at hkey
    | ok k =>
      simp [hr] at hkey
      subst hkey
      simp [keyReadTrace]

theorem submit_create_failed {σ : Type} (rt : Runtime σ) (c : APIClient)
    (data : VMResourceModel) (diags : List Diagnostic) (tr : List Event)
    (createReq : CreateVMRequest) (s : σ) (err : GoError)
    (hcreate : (c.CreateVM rt createReq s).1 = .error err) :
    VMResource.Create.submit rt c data diags tr createReq s =
      ⟨⟨diags ++ [errorDiagnostic "Client Error"
          ("Unable to create VM, got error: " ++ err.msg)], none⟩,
        tr ++ [.Log .info "Creating VM"
          [("name", .str createReq.Name), ("ssh_user", .bool createReq.SSHUser.isSome),
           ("ssh_key", .bool createReq.SSHPublicKey.isSome)], .CreateVM createReq],
        (c.CreateVM rt createReq s).2⟩ := by
  unfold VMResource.Create.submit
  rcases hc : c.CreateVM rt createReq s with ⟨r, s1⟩
  rw [hc] at hcreate
  subst hcreate
  rfl

theorem submit_acquired {σ : Type} (rt : Runtime σ) (c : APIClient)
    (data : VMResourceModel) (diags : List Diagnostic) (tr : List Event)
    (createReq : CreateVMRequest) (s : σ) (createResp : CreateVMResponse)
    (hcreate : (c.CreateVM rt createReq s).1 = .ok createResp)
    (n : Nat) (hn : n < maxRetries)
    (hpend : ∀ j, j < n → ∃ vm,
      pollAnswer rt c createResp.ID j (c.CreateVM rt createReq s).2 = .ok vm ∧ vm.IPAddress = "")
    (vm : VM)
    (hvm : pollAnswer rt c createResp.ID n (c.CreateVM rt createReq s).2 = .ok vm)
    (hip : vm.IPAddress ≠ "") :
    VMResource.Create.submit rt c data diags tr createReq s =
      ⟨⟨diags, some { data with ID := .value createResp.ID, State := .value vm.State,
                                IPAddress := .value vm.IPAddress }⟩,
        tr ++ [.Log .info "Creating VM"
            [("name", .str createReq.Name), ("ssh_user", .bool createReq.SSHUser.isSome),
             ("ssh_key", .bool createReq.SSHPublicKey.isSome)], .CreateVM createReq,
            .Log .trace "Created VM" [("id", .str createResp.ID)]]
          ++ pendingTrace createResp.ID maxRetries 0 n
          ++ [.GetVM createResp.ID,
              .Log .info "VM acquired IP address"
                [("ip", .str vm.IPAddress), ("attempts", .int (n + 1)),
                 ("elapsed_seconds", .int (n + 1))]],
        pollState rt c createResp.ID (n + 1) (c.CreateVM rt createReq s).2⟩ := by
  unfold VMResource.Create.submit
  rcases hc : c.CreateVM rt createReq s with ⟨r, s1⟩
  rw [hc] at hcreate hpend hvm
  simp only at hcreate hpend hvm
  subst hcreate
  have hsteps := pollLoop_pending_steps rt c createResp.ID maxRetries n 0 s1 (by omega) hpend
  have hlast := pollLoop_acquired rt c createResp.ID maxRetries (0 + n)
    (pollState rt c createResp.ID n s1) (by omega) vm hvm hip
  rw [hlast] at hsteps
  simp [TString.ValueString, hsteps, pollState_succ_last]

theorem submit_poll_failed {σ : Type} (rt : Runtime σ) (c : APIClient)
    (data : VMResourceModel) (diags : List Diagnostic) (tr : List Event)
    (createReq : CreateVMRequest) (s : σ) (createResp : CreateVMResponse)
    (hcreate : (c.CreateVM rt createReq s).1 = .ok createResp)
    (n : Nat) (hn : n < maxRetries)
    (hpend : ∀ j, j < n → ∃ vm,
      pollAnswer rt c createResp.ID j (c.CreateVM rt createReq s).2 = .ok vm ∧ vm.IPAddress = "")
    (err : GoError)
    (herr : pollAnswer rt c createResp.ID n (c.CreateVM rt createReq s).2 = .error err) :
    VMResource.Create.submit rt c data diags tr createReq s =
      ⟨⟨diags ++ [errorDiagnostic "Client Error"
          ("Unable to read VM after creation, got error: " ++ err.msg)], none⟩,
        tr ++ [.Log .info "Creating VM"
            [("name", .str createReq.Name), ("ssh_user", .bool createReq.SSHUser.isSome),
             ("ssh_key", .bool createReq.SSHPublicKey.isSome)], .CreateVM createReq,
            .Log .trace "Created VM" [("id", .str createResp.ID)]]
          ++ pendingTrace createResp.ID maxRetries 0 n
          ++ [.GetVM createResp.ID],
        pollState rt c createResp.ID (n + 1) (c.CreateVM rt createReq s).2⟩ := by
  unfold VMResource.Create.submit
  rcases hc : c.CreateVM rt createReq s with ⟨r, s1⟩
  rw [hc] at hcreate hpend herr
  simp only at hcreate hpend herr
  subst hcreate
  have hsteps := pollLoop_pending_steps rt c createResp.ID maxRetries n 0 s1 (by omega) hpend
  have hlast := pollLoop_failed rt c createResp.ID maxRetries (0 + n)
    (pollState rt c createResp.ID n s1) (by omega) err herr
  rw [hlast] at hsteps
  simp [TString.ValueString, hsteps, pollState_succ_last]

theorem submit_timeout {σ : Type} (rt : Runtime σ) (c : APIClient)
    (data : VMResourceModel) (diags : List Diagnostic) (tr : List Event)
    (createReq : CreateVMRequest) (s : σ) (createResp : CreateVMResponse)
    (hcreate : (c.CreateVM rt createReq s).1 = .ok createResp)
    (hpend : ∀ j, j < maxRetries → ∃ vm,
      pollAnswer rt c createResp.ID j (c.CreateVM rt createReq s).2 = .ok vm ∧ vm.IPAddress = "") :
    VMResource.Create.submit rt c data diags tr createReq s =
      ⟨⟨diags ++ [bootTimeoutDiagnostic data.Name.ValueString], none⟩,
        tr ++ [.Log .info "Creating VM"
            [("name", .str createReq.Name), ("ssh_user", .bool createReq.SSHUser.isSome),
             ("ssh_key", .bool createReq.SSHPublicKey.isSome)], .CreateVM createReq,
            .Log .trace "Created VM" [("id", .str createResp.ID)]]
          ++ pendingTrace createResp.ID maxRetries 0 maxRetries
          ++ [.Log .warn "Attempting to delete VM due to timeout"
                [("id", .str createResp.ID)], .DeleteVM createResp.ID]
          ++ cleanupTrace (c.DeleteVM rt createResp.ID
                (pollState rt c createResp.ID maxRetries (c.CreateVM rt createReq s).2)).1,
        (c.DeleteVM rt createResp.ID
          (pollState rt c createResp.ID maxRetries (c.CreateVM rt createReq s).2)).2⟩ := by
  unfold VMResource.Create.submit
  rcases hc : c.CreateVM rt createReq s with ⟨r, s1⟩
  rw [hc] at hcreate hpend
  simp only at hcreate hpend
  subst hcreate
  have hsteps := pollLoop_pending_steps rt c createResp.ID maxRetries maxRetries 0 s1
    (by omega) hpend
  have hlast := pollLoop_exhausted rt c createResp.ID maxRetries (0 + maxRetries)
    (pollState rt c createResp.ID maxRetries s1) (by omega)
  rw [hlast] at hsteps
  simp only [TString.ValueString, hsteps]
  rcases hd : c.DeleteVM rt createResp.ID (pollState rt c createResp.ID maxRetries s1)
    with ⟨d, s2⟩
  cases d <;> simp [cleanupTrace, bootTimeoutDiagnostic]

theorem getCalls_calls (tr : List Event) : getCalls (calls tr) = getCalls tr := by
  unfold getCalls calls
  rw [List.filter_filter]
  congr 1
  funext e
  cases e <;> rfl

theorem deleteCalls_calls (tr : List Event) : deleteCalls (calls tr) = deleteCalls tr := by
  unfold deleteCalls calls
  rw [List.filter_filter]
  congr 1
  funext e
  cases e <;> rfl

theorem calls_cleanupTrace (d : Option GoError) : calls (cleanupTrace d) = [] := by
  cases d <;> simp [cleanupTrace, Event.isCall]

/-! ## Provisioning (`VMResource.Create`) -/

/-- C1: when the create call succeeds with id `createResp.ID` and the answers to
poll attempts `1 .. k-1` succeed without an IP address while attempt `k`
(`1 ≤ k ≤ 300`) succeeds with one, `VMResource.Create` makes exactly `k` `GetVM`
calls (all for that id), no `DeleteVM` call, reports no error, and writes the
plan with the id, and with the state and IP address of the `k`-th answer. -/
theorem Create_ready_on_attempt {σ : Type} (rt : Runtime σ) (c : APIClient)
    (req : CreateRequest) (s : σ) (k : Nat) (hk1 : 1 ≤ k) (hk : k ≤ 300)
    (hplan : HasError req.PlanDiags = false) (key : Option String)
    (hkey : sshPublicKeyOf rt c req.Plan = .ok key)
    (createResp : CreateVMResponse)
    (hcreate : (c.CreateVM rt (createReqOf req.Plan (sshUserOf c req.Plan) key) s).1
      = .ok createResp)
    (hpend : ∀ j, j + 1 < k → ∃ vm,
      pollAnswer rt c createResp.ID j
        (c.CreateVM rt (createReqOf req.Plan (sshUserOf c req.Plan) key) s).2 = .ok vm
      ∧ vm.IPAddress = "")
    (vm : VM)
    (hvm : pollAnswer rt c createResp.ID (k - 1)
      (c.CreateVM rt (createReqOf req.Plan (sshUserOf c req.Plan) key) s).2 = .ok vm)
    (hip : vm.IPAddress ≠ "") :
    (getCalls (VMResource.Create rt c req s).trace).length = k
    ∧ getCalls (VMResource.Create rt c req s).trace
        = List.replicate k (Event.GetVM createResp.ID)
    ∧ deleteCalls (VMResource.Create rt c req s).trace = []
    ∧ calls (VMResource.Create rt c req s).trace
        = Event.CreateVM (createReqOf req.Plan (sshUserOf c req.Plan) key)
            :: List.replicate k (Event.GetVM createResp.ID)
    ∧ HasError (VMResource.Create rt c req s).value.Diagnostics = false
    ∧ (VMResource.Create rt c req s).value.State
        = some { req.Plan with ID := .value createResp.ID, State := .value vm.State,
                               IPAddress := .value vm.IPAddress } := by
  obtain ⟨n, rfl⟩ : ∃ n, k = n + 1 := ⟨k - 1, by omega⟩
  have hrun := submit_acquired rt c req.Plan req.PlanDiags (keyReadTrace c req.Plan key)
    (createReqOf req.Plan (sshUserOf c req.Plan) key) s createResp hcreate n
    (by unfold maxRetries; omega) (fun j hj => hpend j (by omega)) vm hvm hip
  rw [Create_eq_submit rt c req s hplan key hkey, hrun]
  simp only []
  rw [← getCalls_calls, ← deleteCalls_calls]
  have hcalls : ∀ (a : List Event) (l : List (String × LogValue)),
      calls (keyReadTrace c req.Plan key ++ a ++ pendingTrace createResp.ID maxRetries 0 n
        ++ [.GetVM createResp.ID, .Log .info "VM acquired IP address" l])
      = calls a ++ List.replicate (n + 1) (Event.GetVM createResp.ID) := by
    intro a l
    simp [calls_keyReadTrace, calls_pendingTrace, Event.isCall, List.replicate_succ']
  rw [hcalls]
  simp [Event.isCall, getCalls, deleteCalls, Event.isGetVM, Event.isDeleteVM, hplan]

/-- C2: when the create call succeeds with id `createResp.ID` and every one of the
300 poll answers succeeds without an IP address, `VMResource.Create` makes
exactly 300 `GetVM` calls, then exactly one `DeleteVM` call, for that id, and
ends with the "VM Boot Timeout" error without writing any state, whatever the
delete call answers. -/
theorem Create_timeout {σ : Type} (rt : Runtime σ) (c : APIClient)
    (req : CreateRequest) (s : σ)
    (hplan : HasError req.PlanDiags = false) (key : Option String)
    (hkey : sshPublicKeyOf rt c req.Plan = .ok key)
    (createResp : CreateVMResponse)
    (hcreate : (c.CreateVM rt (createReqOf req.Plan (sshUserOf c req.Plan) key) s).1
      = .ok createResp)
    (hpend : ∀ j, j < 300 → ∃ vm,
      pollAnswer rt c createResp.ID j
        (c.CreateVM rt (createReqOf req.Plan (sshUserOf c req.Plan) key) s).2 = .ok vm
      ∧ vm.IPAddress = "") :
    (getCalls (VMResource.Create rt c req s).trace).length = 300
    ∧ getCalls (VMResource.Create rt c req s).trace
        = List.replicate 300 (Event.GetVM createResp.ID)
    ∧ deleteCalls (VMResource.Create rt c req s).trace = [Event.DeleteVM createResp.ID]
    ∧ calls (VMResource.Create rt c req s).trace
        = Event.CreateVM (createReqOf req.Plan (sshUserOf c req.Plan) key)
            :: (List.replicate 300 (Event.GetVM createResp.ID)
                ++ [Event.DeleteVM createResp.ID])
    ∧ (VMResource.Create rt c req s).value.Diagnostics
        = req.PlanDiags ++ [bootTimeoutDiagnostic req.Plan.Name.ValueString]
    ∧ (VMResource.Create rt c req s).value.State = none := by
  have hrun := submit_timeout rt c req.Plan req.PlanDiags (keyReadTrace c req.Plan key)
    (createReqOf req.Plan (sshUserOf c req.Plan) key) s createResp hcreate hpend
  rw [Create_eq_submit rt c req s hplan key hkey, hrun]
  simp only []
  rw [← getCalls_calls, ← deleteCalls_calls, show (300 : Nat) = maxRetries from rfl]
  generalize maxRetries = m
  have hcalls : ∀ (a : List Event) (l : List (String × LogValue)) (d : Option GoError),
      calls (keyReadTrace c req.Plan key ++ a ++ pendingTrace createResp.ID m 0 m
        ++ [.Log .warn "Attempting to delete VM due to timeout" l, .DeleteVM createResp.ID]
        ++ cleanupTrace d)
      = calls a ++ List.replicate m (Event.GetVM createResp.ID)
          ++ [Event.DeleteVM createResp.ID] := by
    intro a l d
    simp [calls_keyReadTrace, calls_pendingTrace, calls_cleanupTrace, Event.isCall]
  rw [hcalls]
  simp [Event.isCall, getCalls, deleteCalls, Event.isGetVM, Event.isDeleteVM]

/-- C4: when the create call succeeds, the answers to poll attempts `1 .. j-1`
succeed without an IP address and attempt `j` (`1 ≤ j ≤ 300`) answers with an
error, `VMResource.Create` ends with the "Unable to read VM after creation"
error carrying that error, having made exactly `j` `GetVM` calls and no
`DeleteVM` call, and writes no state. -/
theorem Create_read_failed_on_attempt {σ : Type} (rt : Runtime σ) (c : APIClient)
    (req : CreateRequest) (s : σ) (j : Nat) (hj1 : 1 ≤ j) (hj : j ≤ 300)
    (hplan : HasError req.PlanDiags = false) (key : Option String)
    (hkey : sshPublicKeyOf rt c req.Plan = .ok key)
    (createResp : CreateVMResponse)
    (hcreate : (c.CreateVM rt (createReqOf req.Plan (sshUserOf c req.Plan) key) s).1
      = .ok createResp)
    (hpend : ∀ i, i + 1 < j → ∃ vm,
      pollAnswer rt c createResp.ID i
        (c.CreateVM rt (createReqOf req.Plan (sshUserOf c req.Plan) key) s).2 = .ok vm
      ∧ vm.IPAddress = "")
    (err : GoError)
    (herr : pollAnswer rt c createResp.ID (j - 1)
      (c.CreateVM rt (createReqOf req.Plan (sshUserOf c req.Plan) key) s).2 = .error err) :
    (getCalls (VMResource.Create rt c req s).trace).length = j
    ∧ getCalls (VMResource.Create rt c req s).trace
        = List.replicate j (Event.GetVM createResp.ID)
    ∧ deleteCalls (VMResource.Create rt c req s).trace = []
    ∧ (VMResource.Create rt c req s).value.Diagnostics
        = req.PlanDiags ++ [errorDiagnostic "Client Error"
            ("Unable to read VM after creation, got error: " ++ err.msg)]
    ∧ (VMResource.Create rt c req s).value.State = none := by
  obtain ⟨n, rfl⟩ : ∃ n, j = n + 1 := ⟨j - 1, by omega⟩
  have hrun := submit_poll_failed rt c req.Plan req.PlanDiags (keyReadTrace c req.Plan key)
    (createReqOf req.Plan (sshUserOf c req.Plan) key) s createResp hcreate n
    (by unfold maxRetries; omega) (fun i hi => hpend i (by omega)) err herr
  rw [Create_eq_submit rt c req s hplan key hkey, hrun]
  simp only []
  rw [← getCalls_calls, ← deleteCalls_calls]
  have hcalls : ∀ (a : List Event),
      calls (keyReadTrace c req.Plan key ++ a ++ pendingTrace createResp.ID maxRetries 0 n
        ++ [.GetVM createResp.ID])
      = calls a ++ List.replicate (n + 1) (Event.GetVM createResp.ID) := by
    intro a
    simp [calls_keyReadTrace, calls_pendingTrace, Event.isCall, List.replicate_succ']
  rw [hcalls]
  simp [Event.isCall, getCalls, deleteCalls, Event.isGetVM, Event.isDeleteVM]

/-- C5: when the `CreateVM` call fails, `VMResource.Create` ends with the
"Unable to create VM" error carrying that failure, writes no state, and makes
no `GetVM` and no `DeleteVM` call: the create call is its only remote call. -/
theorem Create_create_failed {σ : Type} (rt : Runtime σ) (c : APIClient)
    (req : CreateRequest) (s : σ)
    (hplan : HasError req.PlanDiags = false) (key : Option String)
    (hkey : sshPublicKeyOf rt c req.Plan = .ok key)
    (err : GoError)
    (hcreate : (c.CreateVM rt (createReqOf req.Plan (sshUserOf c req.Plan) key) s).1
      = .error err) :
    getCalls (VMResource.Create rt c req s).trace = []
    ∧ deleteCalls (VMResource.Create rt c req s).trace = []
    ∧ calls (VMResource.Create rt c req s).trace
        = [Event.CreateVM (createReqOf req.Plan (sshUserOf c req.Plan) key)]
    ∧ (VMResource.Create rt c req s).value.Diagnostics
        = req.PlanDiags ++ [errorDiagnostic "Client Error"
            ("Unable to create VM, got error: " ++ err.msg)]
    ∧ (VMResource.Create rt c req s).value.State = none := by
  have hrun := submit_create_failed rt c req.Plan req.PlanDiags (keyReadTrace c req.Plan key)
    (createReqOf req.Plan (sshUserOf c req.Plan) key) s err hcreate
  rw [Create_eq_submit rt c req s hplan key hkey, hrun]
  simp only []
  rw [← getCalls_calls, ← deleteCalls_calls]
  simp [calls_keyReadTrace, Event.isCall, getCalls, deleteCalls, Event.isGetVM,
    Event.isDeleteVM]

/-! ### Concrete runs against the scripted control plane -/

theorem mock_createReq :
    createReqOf mockPlan (sshUserOf mockClient mockPlan) none = mockCreateReq := by
  simp [createReqOf, mockPlan, mockCreateReq, sshUserOf, mockClient, TString.IsNull,
    TString.ValueString, TInt64.ValueInt64, wrapInt64]

theorem mock_key (m : MockScript) :
    sshPublicKeyOf (mockRuntime m) mockClient mockPlan = .ok none := by
  simp [sshPublicKeyOf, sshPublicKeyFileOf, mockPlan, mockClient, TString.IsNull]

theorem mock_CreateVM (m : MockScript) (req : CreateVMRequest) (n : Nat) :
    mockClient.CreateVM (mockRuntime m) req n =
      (if m.createStatus ≠ 201 then .error (statusError ⟨m.createStatus, "vm-1"⟩)
       else .ok ⟨"vm-1", "web", "pending"⟩, n) := by
  simp only [APIClient.CreateVM, mockRuntime, StatusCreated]
  split_ifs <;> simp_all

theorem mock_GetVM (m : MockScript) (id : String) (n : Nat) :
    mockClient.GetVM (mockRuntime m) id n =
      (if n + 1 = m.failAt then .error (statusError ⟨500, "boom"⟩)
       else .ok ⟨"vm-1", "web", "running", 2, 4096,
          if 1 ≤ m.readyAt ∧ m.readyAt ≤ n + 1 then "192.0.2.7" else ""⟩, n + 1) := by
  simp only [APIClient.GetVM, mockRuntime, StatusOK, StatusNotFound]
  split_ifs <;> simp_all

theorem mock_pollState (m : MockScript) (id : String) (j : Nat) : ∀ n : Nat,
    pollState (mockRuntime m) mockClient id j n = n + j := by
  induction j with
  | zero => intro n; rfl
  | succ j ih =>
    intro n
    rw [pollState, mock_GetVM, ih]
    omega

theorem mock_pollAnswer (m : MockScript) (id : String) (j n : Nat) :
    pollAnswer (mockRuntime m) mockClient id j n =
      if n + j + 1 = m.failAt then .error (statusError ⟨500, "boom"⟩)
      else .ok ⟨"vm-1", "web", "running", 2, 4096,
          if 1 ≤ m.readyAt ∧ m.readyAt ≤ n + j + 1 then "192.0.2.7" else ""⟩ := by
  rw [pollAnswer, mock_pollState, mock_GetVM]

/-- Witness for C1: the mock reports an IP address on poll attempt 2. -/
theorem Create_ready_on_attempt_witness :
    (getCalls (VMResource.Create (mockRuntime ⟨201, 2, 0, 200⟩) mockClient
        ⟨[], mockPlan⟩ 0).trace).length = 2
    ∧ deleteCalls (VMResource.Create (mockRuntime ⟨201, 2, 0, 200⟩) mockClient
        ⟨[], mockPlan⟩ 0).trace = []
    ∧ (VMResource.Create (mockRuntime ⟨201, 2, 0, 200⟩) mockClient
        ⟨[], mockPlan⟩ 0).value.State
      = some { mockPlan with ID := .value "vm-1", State := .value "running",
                             IPAddress := .value "192.0.2.7" } :=
  have h := Create_ready_on_attempt (mockRuntime ⟨201, 2, 0, 200⟩) mockClient
    ⟨[], mockPlan⟩ 0 2 (by decide) (by decide) rfl none (mock_key _)
    ⟨"vm-1", "web", "pending"⟩ (by simp [mock_CreateVM])
    (by
      intro j hj
      obtain rfl : j = 0 := by omega
      exact ⟨⟨"vm-1", "web", "running", 2, 4096, ""⟩,
        by simp [mock_CreateVM, mock_pollAnswer], rfl⟩)
    ⟨"vm-1", "web", "running", 2, 4096, "192.0.2.7"⟩
    (by simp [mock_CreateVM, mock_pollAnswer]) (by decide)
  ⟨h.1, h.2.2.1, h.2.2.2.2.2⟩

/-- Witness for C2: the mock never reports an IP address. -/
theorem Create_timeout_witness :
    (getCalls (VMResource.Create (mockRuntime ⟨201, 0, 0, 200⟩) mockClient
        ⟨[], mockPlan⟩ 0).trace).length = 300
    ∧ deleteCalls (VMResource.Create (mockRuntime ⟨201, 0, 0, 200⟩) mockClient
        ⟨[], mockPlan⟩ 0).trace = [Event.DeleteVM "vm-1"]
    ∧ (VMResource.Create (mockRuntime ⟨201, 0, 0, 200⟩) mockClient
        ⟨[], mockPlan⟩ 0).value.Diagnostics = [bootTimeoutDiagnostic "web"]
    ∧ (VMResource.Create (mockRuntime ⟨201, 0, 0, 200⟩) mockClient
        ⟨[], mockPlan⟩ 0).value.State = none :=
  have h := Create_timeout (mockRuntime ⟨201, 0, 0, 200⟩) mockClient
    ⟨[], mockPlan⟩ 0 rfl none (mock_key _)
    ⟨"vm-1", "web", "pending"⟩ (by simp [mock_CreateVM])
    (by
      intro j _
      exact ⟨⟨"vm-1", "web", "running", 2, 4096, ""⟩,
        by simp [mock_CreateVM, mock_pollAnswer], rfl⟩)
  ⟨h.1, h.2.2.1, h.2.2.2.2.1, h.2.2.2.2.2⟩

/-- Witness for C4: the mock answers poll attempt 2 with status 500. -/
theorem Create_read_failed_on_attempt_witness :
    (getCalls (VMResource.Create (mockRuntime ⟨201, 0, 2, 200⟩) mockClient
        ⟨[], mockPlan⟩ 0).trace).length = 2
    ∧ deleteCalls (VMResource.Create (mockRuntime ⟨201, 0, 2, 200⟩) mockClient
        ⟨[], mockPlan⟩ 0).trace = []
    ∧ (VMResource.Create (mockRuntime ⟨201, 0, 2, 200⟩) mockClient
        ⟨[], mockPlan⟩ 0).value.Diagnostics
      = [errorDiagnostic "Client Error"
          ("Unable to read VM after creation, got error: "
            ++ (statusError ⟨500, "boom"⟩).msg)]
    ∧ (VMResource.Create (mockRuntime ⟨201, 0, 2, 200⟩) mockClient
        ⟨[], mockPlan⟩ 0).value.State = none :=
  have h := Create_read_failed_on_attempt (mockRuntime ⟨201, 0, 2, 200⟩) mockClient
    ⟨[], mockPlan⟩ 0 2 (by decide) (by decide) rfl none (mock_key _)
    ⟨"vm-1", "web", "pending"⟩ (by simp [mock_CreateVM])
    (by
      intro j hj
      obtain rfl : j = 0 := by omega
      exact ⟨⟨"vm-1", "web", "running", 2, 4096, ""⟩,
        by simp [mock_CreateVM, mock_pollAnswer], rfl⟩)
    (statusError ⟨500, "boom"⟩)
    (by simp [mock_CreateVM, mock_pollAnswer])
  ⟨h.1, h.2.2.1, h.2.2.2.1, h.2.2.2.2⟩

/-- Witness for C5: the mock answers the create call with status 500. -/
theorem Create_create_failed_witness :
    getCalls (VMResource.Create (mockRuntime ⟨500, 1, 0, 200⟩) mockClient
        ⟨[], mockPlan⟩ 0).trace = []
    ∧ deleteCalls (VMResource.Create (mockRuntime ⟨500, 1, 0, 200⟩) mockClient
        ⟨[], mockPlan⟩ 0).trace = []
    ∧ (VMResource.Create (mockRuntime ⟨500, 1, 0, 200⟩) mockClient
        ⟨[], mockPlan⟩ 0).value.Diagnostics
      = [errorDiagnostic "Client Error"
          ("Unable to create VM, got error: " ++ (statusError ⟨500, "vm-1"⟩).msg)]
    ∧ (VMResource.Create (mockRuntime ⟨500, 1, 0, 200⟩) mockClient
        ⟨[], mockPlan⟩ 0).value.State = none :=
  have h := Create_create_failed (mockRuntime ⟨500, 1, 0, 200⟩) mockClient
    ⟨[], mockPlan⟩ 0 rfl none (mock_key _)
    (statusError ⟨500, "vm-1"⟩) (by simp [mock_CreateVM])
  ⟨h.1, h.2.1, h.2.2.2.1, h.2.2.2.2⟩

theorem errorLogs_pendingTrace (id : String) (M : Nat) (n : Nat) : ∀ i : Nat,
    errorLogs (pendingTrace id M i n) = [] := by
  induction n with
  | zero => intro i; simp [pendingTrace, errorLogs]
  | succ n ih =>
    intro i
    have h := ih (i + 1)
    simp only [pendingTrace, errorLogs, List.range'_succ, List.flatMap_cons,
      List.filter_append] at h ⊢
    rw [h]
    unfold pendingEvents
    split_ifs <;> simp [Event.isErrorLog]

theorem errorLogs_keyReadTrace (c : APIClient) (data : VMResourceModel) (key : Option String) :
    errorLogs (keyReadTrace c data key) = [] := by
  cases key <;> simp [keyReadTrace, errorLogs, Event.isErrorLog]

/-- C3 (counterexample): two runs against the mock both exhaust the poll budget;
in the first the cleanup `DeleteVM` fails (status 500), in the second it
succeeds, and `VMResource.Create` returns the same response in both, whose
only diagnostic is the boot timeout: nothing about the cleanup is attached. -/
theorem Create_timeout_cleanup_failure_same_response :
    (mockClient.DeleteVM (mockRuntime ⟨201, 0, 0, 500⟩) "vm-1" 300).1
        = some (statusError ⟨500, "busy"⟩)
    ∧ (mockClient.DeleteVM (mockRuntime ⟨201, 0, 0, 200⟩) "vm-1" 300).1 = none
    ∧ (VMResource.Create (mockRuntime ⟨201, 0, 0, 500⟩) mockClient ⟨[], mockPlan⟩ 0).value
        = (VMResource.Create (mockRuntime ⟨201, 0, 0, 200⟩) mockClient ⟨[], mockPlan⟩ 0).value
    ∧ (VMResource.Create (mockRuntime ⟨201, 0, 0, 500⟩) mockClient ⟨[], mockPlan⟩ 0).value
        = ⟨[bootTimeoutDiagnostic "web"], none⟩ := by
  have hrun : ∀ d : Int,
      (VMResource.Create (mockRuntime ⟨201, 0, 0, d⟩) mockClient ⟨[], mockPlan⟩ 0).value
        = ⟨[bootTimeoutDiagnostic "web"], none⟩ := by
    intro d
    rw [Create_eq_submit (mockRuntime ⟨201, 0, 0, d⟩) mockClient ⟨[], mockPlan⟩ 0 rfl none
        (mock_key _),
      submit_timeout (mockRuntime ⟨201, 0, 0, d⟩) mockClient mockPlan [] _ _ 0
        ⟨"vm-1", "web", "pending"⟩ (by simp [mock_CreateVM])
        (by
          intro j _
          exact ⟨⟨"vm-1", "web", "running", 2, 4096, ""⟩,
            by simp [mock_CreateVM, mock_pollAnswer], rfl⟩)]
    rfl
  refine ⟨?_, ?_, ?_, hrun 500⟩
  · simp [APIClient.DeleteVM, mockRuntime, StatusOK]
  · simp [APIClient.DeleteVM, mockRuntime, StatusOK]
  · rw [hrun 500, hrun 200]

/-- C3 (amended): when the poll budget is exhausted and the cleanup `DeleteVM` call
fails with `cleanupErr`, the response of `VMResource.Create` is the plan
diagnostics followed by the single "VM Boot Timeout" error, with no state
written (no delete-specific diagnostic, nothing attached); the cleanup failure
is recorded only in the log, as the final event of the run and its only
error-level record, "Failed to clean up VM after timeout", carrying the
message of `cleanupErr`. -/
theorem Create_timeout_cleanup_failed {σ : Type} (rt : Runtime σ) (c : APIClient)
    (req : CreateRequest) (s : σ)
    (hplan : HasError req.PlanDiags = false) (key : Option String)
    (hkey : sshPublicKeyOf rt c req.Plan = .ok key)
    (createResp : CreateVMResponse)
    (hcreate : (c.CreateVM rt (createReqOf req.Plan (sshUserOf c req.Plan) key) s).1
      = .ok createResp)
    (hpend : ∀ j, j < 300 → ∃ vm,
      pollAnswer rt c createResp.ID j
        (c.CreateVM rt (createReqOf req.Plan (sshUserOf c req.Plan) key) s).2 = .ok vm
      ∧ vm.IPAddress = "")
    (cleanupErr : GoError)
    (hdelete : (c.DeleteVM rt createResp.ID (pollState rt c createResp.ID 300
      (c.CreateVM rt (createReqOf req.Plan (sshUserOf c req.Plan) key) s).2)).1
      = some cleanupErr) :
    (VMResource.Create rt c req s).value
        = ⟨req.PlanDiags ++ [bootTimeoutDiagnostic req.Plan.Name.ValueString], none⟩
    ∧ (VMResource.Create rt c req s).trace.getLast?
        = some (.Log .error "Failed to clean up VM after timeout"
            [("error", .str cleanupErr.msg)])
    ∧ errorLogs (VMResource.Create rt c req s).trace
        = [.Log .error "Failed to clean up VM after timeout"
            [("error", .str cleanupErr.msg)]] := by
  have hrun := submit_timeout rt c req.Plan req.PlanDiags (keyReadTrace c req.Plan key)
    (createReqOf req.Plan (sshUserOf c req.Plan) key) s createResp hcreate hpend
  have h300 : maxRetries = 300 := rfl
  rw [Create_eq_submit rt c req s hplan key hkey, hrun, h300, hdelete]
  refine ⟨rfl, ?_, ?_⟩
  · simp only [cleanupTrace, List.getLast?_concat]
  · simp only [errorLogs, List.filter_append]
    have h1 := errorLogs_keyReadTrace c req.Plan key
    have h2 := errorLogs_pendingTrace createResp.ID 300 300 0
    simp only [errorLogs] at h1 h2
    rw [h1, h2]
    simp [cleanupTrace, Event.isErrorLog]

/-- Witness for the amended C3: the mock never reports an IP address and answers
the cleanup delete with status 500. -/
theorem Create_timeout_cleanup_failed_witness :
    (VMResource.Create (mockRuntime ⟨201, 0, 0, 500⟩) mockClient ⟨[], mockPlan⟩ 0).value
        = ⟨[bootTimeoutDiagnostic "web"], none⟩
    ∧ errorLogs (VMResource.Create (mockRuntime ⟨201, 0, 0, 500⟩) mockClient
        ⟨[], mockPlan⟩ 0).trace
        = [.Log .error "Failed to clean up VM after timeout"
            [("error", .str (statusError ⟨500, "busy"⟩).msg)]] :=
  have h := Create_timeout_cleanup_failed (mockRuntime ⟨201, 0, 0, 500⟩) mockClient
    ⟨[], mockPlan⟩ 0 rfl none (mock_key _)
    ⟨"vm-1", "web", "pending"⟩ (by simp [mock_CreateVM])
    (by
      intro j _
      exact ⟨⟨"vm-1", "web", "running", 2, 4096, ""⟩,
        by simp [mock_CreateVM, mock_pollAnswer], rfl⟩)
    (statusError ⟨500, "busy"⟩)
    (by simp [APIClient.DeleteVM, mockRuntime, StatusOK])
  ⟨h.1, h.2.2⟩

/-! ## The create request -/

theorem wrapInt64_isInt64 (x : Int) : isInt64 (wrapInt64 x) := by
  unfold isInt64 wrapInt64
  constructor <;> omega

theorem wrapInt64_congr (x : Int) : (2 ^ 64 : Int) ∣ (wrapInt64 x - x) := by
  unfold wrapInt64
  refine ⟨-((x + 2 ^ 63) / 2 ^ 64), ?_⟩
  have h := Int.emod_add_ediv (x + 2 ^ 63) (2 ^ 64)
  omega

theorem wrapInt64_of_isInt64 (x : Int) (h : isInt64 x) : wrapInt64 x = x := by
  unfold isInt64 at h
  unfold wrapInt64
  omega

theorem pollLoop_no_create {σ : Type} (rt : Runtime σ) (c : APIClient) (id : String)
    (M : Nat) (n : Nat) : ∀ (i : Nat) (s : σ), M - i = n →
    ∀ r, Event.CreateVM r ∉ (pollLoop rt c id M i s).trace := by
  induction n with
  | zero =>
    intro i s h r
    rw [pollLoop_exhausted rt c id M i s (by omega)]
    simp
  | succ n ih =>
    intro i s h r
    have hi : i < M := by omega
    cases hg : (c.GetVM rt id s).1 with
    | error err =>
      rw [pollLoop_failed rt c id M i s hi err hg]
      simp
    | ok vm =>
      by_cases hip : vm.IPAddress = ""
      · rw [pollLoop_pending rt c id M i s hi vm hg hip]
        have hrest := ih (i + 1) (c.GetVM rt id s).2 (by omega) r
        simp only [List.mem_append, not_or]
        refine ⟨?_, hrest⟩
        unfold pendingEvents
        split_ifs <;> simp
      · rw [pollLoop_acquired rt c id M i s hi vm hg hip]
        simp

theorem submit_create_event {σ : Type} (rt : Runtime σ) (c : APIClient)
    (data : VMResourceModel) (diags : List Diagnostic) (tr : List Event)
    (createReq : CreateVMRequest) (s : σ) (r : CreateVMRequest)
    (htr : Event.CreateVM r ∉ tr)
    (h : Event.CreateVM r ∈ (VMResource.Create.submit rt c data diags tr createReq s).trace) :
    r = createReq := by
  unfold VMResource.Create.submit at h
  rcases hc : c.CreateVM rt createReq s with ⟨res, s1⟩
  rw [hc] at h
  cases res with
  | error err =>
    simpa [htr] using h
  | ok createResp =>
    have hpoll := pollLoop_no_create rt c createResp.ID maxRetries (maxRetries - 0) 0 s1 rfl r
    simp only [TString.ValueString] at h
    cases hv : (pollLoop rt c createResp.ID maxRetries 0 s1).value with
    | failed err =>
      rw [hv] at h
      simpa [htr, hpoll] using h
    | acquired vm =>
      rw [hv] at h
      simpa [htr, hpoll] using h
    | exhausted =>
      rw [hv] at h
      rcases hd : c.DeleteVM rt createResp.ID (pollLoop rt c createResp.ID maxRetries 0 s1).world
        with ⟨d, s2⟩
      rw [hd] at h
      cases d <;> simpa [htr, hpoll] using h

/-- C6: every create request `VMResource.Create` sends copies name, vCPUs, base
image and root disk size from the plan, and its `memory_mb` is the plan's
`memory_gb` times 1024 in 64-bit signed arithmetic: it lies in the `int64`
range, is congruent to the exact product modulo `2^64`, equals the exact
product whenever that fits, and is 4096 for `memory_gb = 4`. -/
theorem Create_request_fields {σ : Type} (rt : Runtime σ) (c : APIClient)
    (req : CreateRequest) (s : σ) (r : CreateVMRequest)
    (h : Event.CreateVM r ∈ (VMResource.Create rt c req s).trace) :
    r.Name = req.Plan.Name.ValueString
    ∧ r.VCPUs = req.Plan.VCPUs.ValueInt64
    ∧ r.BaseImage = req.Plan.BaseImage.ValueString
    ∧ r.RootDiskGB = req.Plan.RootDiskGB.ValueInt64
    ∧ r.MemoryMB = wrapInt64 (req.Plan.MemoryGB.ValueInt64 * 1024)
    ∧ isInt64 r.MemoryMB
    ∧ (2 ^ 64 : Int) ∣ (r.MemoryMB - req.Plan.MemoryGB.ValueInt64 * 1024)
    ∧ (isInt64 (req.Plan.MemoryGB.ValueInt64 * 1024) →
        r.MemoryMB = req.Plan.MemoryGB.ValueInt64 * 1024)
    ∧ (req.Plan.MemoryGB = .value 4 → r.MemoryMB = 4096) := by
  have hr : ∃ key, r = createReqOf req.Plan (sshUserOf c req.Plan) key := by
    unfold VMResource.Create at h
    simp only at h
    split_ifs at h with h1 h2
    · simp at h
    · cases hf : rt.ReadFile (sshPublicKeyFileOf c req.Plan) with
      | error err =>
        rw [hf] at h
        simp at h
      | ok keyStr =>
        rw [hf] at h
        exact ⟨some keyStr, submit_create_event rt c _ _ _ _ s r (by simp) h⟩
    · exact ⟨none, submit_create_event rt c _ _ _ _ s r (by simp) h⟩
  obtain ⟨key, rfl⟩ := hr
  refine ⟨rfl, rfl, rfl, rfl, rfl, wrapInt64_isInt64 _, wrapInt64_congr _,
    fun hfit => wrapInt64_of_isInt64 _ hfit, fun h4 => ?_⟩
  simp only [createReqOf, h4, TInt64.ValueInt64]
  decide

/-- Witness for C6: the create request sent for `mockPlan` (4 GB of memory). -/
theorem Create_request_fields_witness :
    Event.CreateVM mockCreateReq
        ∈ (VMResource.Create (mockRuntime ⟨500, 0, 0, 200⟩) mockClient ⟨[], mockPlan⟩ 0).trace
    ∧ mockCreateReq.MemoryMB = 4096
    ∧ mockCreateReq.Name = "web" :=
  have hin : Event.CreateVM mockCreateReq
      ∈ (VMResource.Create (mockRuntime ⟨500, 0, 0, 200⟩) mockClient ⟨[], mockPlan⟩ 0).trace := by
    rw [Create_eq_submit (mockRuntime ⟨500, 0, 0, 200⟩) mockClient ⟨[], mockPlan⟩ 0 rfl none
        (mock_key _),
      submit_create_failed (mockRuntime ⟨500, 0, 0, 200⟩) mockClient mockPlan [] _ _ 0
        (statusError ⟨500, "vm-1"⟩) (by simp [mock_CreateVM])]
    simp [mock_createReq]
  have h := Create_request_fields (mockRuntime ⟨500, 0, 0, 200⟩) mockClient ⟨[], mockPlan⟩ 0
    mockCreateReq hin
  ⟨hin, h.2.2.2.2.2.2.2.2 rfl, h.1⟩

/-! ## Refresh (`VMResource.Read`) -/

/-! ### The status error determines the status code and the body -/

theorem digitVal_digitChar (k : Nat) (h : k < 10) : digitVal (Nat.digitChar k) = k := by
  interval_cases k <;> rfl

theorem digitChar_isDigit (k : Nat) (h : k < 10) : (Nat.digitChar k).isDigit = true := by
  interval_cases k <;> rfl

theorem toDigitsCore_acc (fuel : Nat) : ∀ (n : Nat) (ds : List Char),
    Nat.toDigitsCore 10 fuel n ds = Nat.toDigitsCore 10 fuel n [] ++ ds := by
  induction fuel with
  | zero => intro n ds; simp [Nat.toDigitsCore]
  | succ fuel ih =>
    intro n ds
    simp only [Nat.toDigitsCore]
    split_ifs
    · simp
    · rw [ih (n / 10) (_ :: ds), ih (n / 10) [_]]
      simp

theorem decimalValue_append_singleton (l : List Char) (ch : Char) :
    decimalValue (l ++ [ch]) = 10 * decimalValue l + digitVal ch := by
  simp [decimalValue, List.foldl_append]

theorem decimalValue_toDigitsCore (fuel : Nat) : ∀ n : Nat, n < fuel →
    decimalValue (Nat.toDigitsCore 10 fuel n []) = n := by
  induction fuel with
  | zero => intro n h; omega
  | succ fuel ih =>
    intro n h
    simp only [Nat.toDigitsCore]
    split_ifs with h0
    · have : n < 10 := by omega
      simp [decimalValue, digitVal_digitChar _ (Nat.mod_lt n (by decide))]
      omega
    · rw [toDigitsCore_acc, decimalValue_append_singleton,
        ih (n / 10) (by omega), digitVal_digitChar _ (Nat.mod_lt n (by decide))]
      omega

theorem toDigitsCore_isDigit (fuel : Nat) : ∀ (n : Nat),
    ∀ ch ∈ Nat.toDigitsCore 10 fuel n [], ch.isDigit = true := by
  induction fuel with
  | zero => intro n ch h; simp [Nat.toDigitsCore] at h
  | succ fuel ih =>
    intro n ch h
    simp only [Nat.toDigitsCore] at h
    split_ifs at h with h0
    · simp at h
      subst h
      exact digitChar_isDigit _ (Nat.mod_lt n (by decide))
    · rw [toDigitsCore_acc] at h
      rcases List.mem_append.mp h with h | h
      · exact ih _ ch h
      · simp at h
        subst h
        exact digitChar_isDigit _ (Nat.mod_lt n (by decide))

theorem Int_toString_ofNat (n : Nat) :
    (toString (Int.ofNat n)).data = Nat.toDigits 10 n := rfl

theorem Int_toString_negSucc (n : Nat) :
    (toString (Int.negSucc n)).data = '-' :: Nat.toDigits 10 (n + 1) := rfl

theorem toString_int_no_colon (code : Int) : ':' ∉ (toString code).data := by
  intro h
  cases code with
  | ofNat n =>
    rw [Int_toString_ofNat] at h
    have := toDigitsCore_isDigit _ _ _ h
    revert this
    decide
  | negSucc n =>
    rw [Int_toString_negSucc] at h
    rcases List.mem_cons.mp h with h | h
    · revert h
      decide
    · have := toDigitsCore_isDigit _ _ _ h
      revert this
      decide

theorem toDigits_injective (n m : Nat) (h : Nat.toDigits 10 n = Nat.toDigits 10 m) : n = m := by
  have hn := decimalValue_toDigitsCore (n + 1) n (Nat.lt_succ_self n)
  have hm := decimalValue_toDigitsCore (m + 1) m (Nat.lt_succ_self m)
  unfold Nat.toDigits at h
  rw [h, hm] at hn
  exact hn.symm

theorem toString_int_injective (a b : Int) (h : toString a = toString b) : a = b := by
  have hd := congrArg String.data h
  cases a with
  | ofNat n =>
    cases b with
    | ofNat m =>
      rw [Int_toString_ofNat, Int_toString_ofNat] at hd
      rw [toDigits_injective n m hd]
    | negSucc m =>
      rw [Int_toString_ofNat, Int_toString_negSucc] at hd
      have hmem : '-' ∈ Nat.toDigits 10 n := by rw [hd]; exact List.mem_cons_self _ _
      have := toDigitsCore_isDigit _ _ _ hmem
      exact absurd this (by decide)
  | negSucc n =>
    cases b with
    | ofNat m =>
      rw [Int_toString_ofNat, Int_toString_negSucc] at hd
      have hmem : '-' ∈ Nat.toDigits 10 m := by rw [← hd]; exact List.mem_cons_self _ _
      have := toDigitsCore_isDigit _ _ _ hmem
      exact absurd this (by decide)
    | negSucc m =>
      rw [Int_toString_negSucc, Int_toString_negSucc] at hd
      have := toDigits_injective (n + 1) (m + 1) (List.cons_injective hd)
      have : n = m := by omega
      rw [this]

theorem split_at_delimiter (x : Char) : ∀ (d1 d2 r1 r2 : List Char), x ∉ d1 → x ∉ d2 →
    d1 ++ x :: r1 = d2 ++ x :: r2 → d1 = d2 ∧ r1 = r2 := by
  intro d1
  induction d1 with
  | nil =>
    intro d2 r1 r2 _ h2 h
    cases d2 with
    | nil => simpa using h
    | cons y d2 =>
      simp only [List.nil_append, List.cons_append, List.cons.injEq] at h
      exact absurd (h.1 ▸ List.mem_cons_self _ _) h2
  | cons y d1 ih =>
    intro d2 r1 r2 h1 h2 h
    cases d2 with
    | nil =>
      simp only [List.nil_append, List.cons_append, List.cons.injEq] at h
      exact absurd (h.1 ▸ List.mem_cons_self _ _) h1
    | cons z d2 =>
      simp only [List.cons_append, List.cons.injEq] at h
      obtain ⟨hd, hr⟩ := ih d2 r1 r2 (fun hm => h1 (List.mem_cons_of_mem _ hm))
        (fun hm => h2 (List.mem_cons_of_mem _ hm)) h.2
      exact ⟨by rw [h.1, hd], hr⟩

theorem status_message_injective (c1 c2 : Int) (b1 b2 : String)
    (h : "API returned status " ++ toString c1 ++ ": " ++ b1
       = "API returned status " ++ toString c2 ++ ": " ++ b2) : c1 = c2 ∧ b1 = b2 := by
  have hd := congrArg String.data h
  simp only [String.data_append, List.append_assoc, List.append_cancel_left_eq] at hd
  simp only [List.cons_append, List.nil_append] at hd
  obtain ⟨hc, hb⟩ := split_at_delimiter ':' _ _ _ _ (toString_int_no_colon c1)
    (toString_int_no_colon c2) hd
  exact ⟨toString_int_injective c1 c2 (String.ext hc), String.ext (List.cons_injective hb)⟩

theorem statusError_injective (r1 r2 : HTTPResponse) (h : statusError r1 = statusError r2) :
    r1 = r2 := by
  unfold statusError at h
  injection h with h
  obtain ⟨hc, hb⟩ := status_message_injective _ _ _ _ h
  cases r1
  cases r2
  simp only at hc hb
  rw [hc, hb]

theorem string_append_cancel_left (a b c : String) (h : a ++ b = a ++ c) : b = c := by
  have hd := congrArg String.data h
  simp only [String.data_append, List.append_cancel_left_eq] at hd
  exact String.ext hd


/-- C7: on a successful `GetVM` answer `vm`, `VMResource.Read` writes the prior
state with `state` replaced by the answer's state and `ip_address` replaced by
the answer's IP address when it is non-empty and by null when it is empty; all
other fields are the prior state's.  A prior IP address never survives an
answer without one. -/
theorem Read_refreshes_state {σ : Type} (rt : Runtime σ) (c : APIClient)
    (req : ReadRequest) (s : σ) (vm : VM)
    (hstate : HasError req.StateDiags = false)
    (hget : (c.GetVM rt req.State.ID.ValueString s).1 = .ok vm) :
    (VMResource.Read rt c req s).value.State
        = some { req.State with
            State := .value vm.State,
            IPAddress := if vm.IPAddress ≠ "" then .value vm.IPAddress else .null }
    ∧ (vm.IPAddress = "" →
        (VMResource.Read rt c req s).value.State
          = some { req.State with State := .value vm.State, IPAddress := .null })
    ∧ (VMResource.Read rt c req s).value.Diagnostics = req.StateDiags
    ∧ (VMResource.Read rt c req s).trace = [.GetVM req.State.ID.ValueString] := by
  unfold VMResource.Read
  rcases hg : c.GetVM rt req.State.ID.ValueString s with ⟨res, s1⟩
  rw [hg] at hget
  simp only at hget
  subst hget
  by_cases hip : vm.IPAddress = "" <;> simp [hstate, hip, hg]

/-- Witness for C7: a prior state holding the IP address 192.0.2.7 is refreshed
from an answer that reports none. -/
theorem Read_refreshes_state_witness :
    (VMResource.Read (mockRuntime ⟨201, 0, 0, 200⟩) mockClient
        ⟨[], { mockPlan with ID := .value "vm-1", State := .value "pending",
                             IPAddress := .value "192.0.2.7" }⟩ 0).value.State
      = some { mockPlan with ID := .value "vm-1", State := .value "running",
                             IPAddress := .null } :=
  (Read_refreshes_state (mockRuntime ⟨201, 0, 0, 200⟩) mockClient
    ⟨[], { mockPlan with ID := .value "vm-1", State := .value "pending",
                         IPAddress := .value "192.0.2.7" }⟩ 0
    ⟨"vm-1", "web", "running", 2, 4096, ""⟩ rfl (by simp [mock_GetVM])).2.1 rfl

/-- C8: a 404 answer makes `GetVM` fail with the error "VM not found"; any other
answer whose status is not 200 makes it fail with the error "API returned
status <code>: <body>" built from that answer's status code and body.  The
two errors always differ, and so do the responses `VMResource.Read` builds on
them (each the prior diagnostics plus one "Client Error", no state written).
The generic error determines the status code and the body it was built from. -/
theorem GetVM_not_found_distinct {σ : Type} (rt : Runtime σ) (c : APIClient)
    (req : ReadRequest) (s1 s2 w1 w2 : σ) (resp1 resp2 : HTTPResponse)
    (hstate : HasError req.StateDiags = false)
    (hreq : rt.NewRequest "GET" (c.Endpoint ++ "/api/v1/vms/" ++ req.State.ID.ValueString)
      = none)
    (hdo1 : rt.Do ⟨"GET", c.Endpoint ++ "/api/v1/vms/" ++ req.State.ID.ValueString,
      c.authHeader, none⟩ s1 = (.ok resp1, w1))
    (h404 : resp1.StatusCode = 404)
    (hdo2 : rt.Do ⟨"GET", c.Endpoint ++ "/api/v1/vms/" ++ req.State.ID.ValueString,
      c.authHeader, none⟩ s2 = (.ok resp2, w2))
    (hne404 : resp2.StatusCode ≠ 404) (hne200 : resp2.StatusCode ≠ 200) :
    (c.GetVM rt req.State.ID.ValueString s1).1 = .error ⟨"VM not found"⟩
    ∧ (c.GetVM rt req.State.ID.ValueString s2).1
        = .error ⟨"API returned status " ++ toString resp2.StatusCode ++ ": " ++ resp2.Body⟩
    ∧ (c.GetVM rt req.State.ID.ValueString s1).1 ≠ (c.GetVM rt req.State.ID.ValueString s2).1
    ∧ (VMResource.Read rt c req s1).value
        = ⟨req.StateDiags ++ [errorDiagnostic "Client Error"
            "Unable to read VM, got error: VM not found"], none⟩
    ∧ (VMResource.Read rt c req s2).value
        = ⟨req.StateDiags ++ [errorDiagnostic "Client Error"
            ("Unable to read VM, got error: " ++ ("API returned status "
              ++ toString resp2.StatusCode ++ ": " ++ resp2.Body))], none⟩
    ∧ (VMResource.Read rt c req s1).value ≠ (VMResource.Read rt c req s2).value
    ∧ (∀ resp : HTTPResponse,
        (Except.error (statusError resp) : Except GoError VM)
          = (c.GetVM rt req.State.ID.ValueString s2).1 →
        resp.StatusCode = resp2.StatusCode ∧ resp.Body = resp2.Body) := by
  have hg1 : c.GetVM rt req.State.ID.ValueString s1 = (.error ⟨"VM not found"⟩, w1) := by
    simp [APIClient.GetVM, hreq, hdo1, h404, StatusNotFound]
  have hg2 : c.GetVM rt req.State.ID.ValueString s2 = (.error (statusError resp2), w2) := by
    simp [APIClient.GetVM, hreq, hdo2, hne404, hne200, StatusNotFound, StatusOK]
  have hne : ("VM not found" : String)
      ≠ "API returned status " ++ toString resp2.StatusCode ++ ": " ++ resp2.Body := by
    intro h
    have hd := congrArg String.data h
    simp only [String.data_append] at hd
    have h0 := congrArg List.head? hd
    simp [List.append_assoc] at h0
  have hread1 : (VMResource.Read rt c req s1).value
      = ⟨req.StateDiags ++ [errorDiagnostic "Client Error"
          "Unable to read VM, got error: VM not found"], none⟩ := by
    simp [VMResource.Read, hstate, hg1]
  have hread2 : (VMResource.Read rt c req s2).value
      = ⟨req.StateDiags ++ [errorDiagnostic "Client Error"
          ("Unable to read VM, got error: " ++ ("API returned status "
            ++ toString resp2.StatusCode ++ ": " ++ resp2.Body))], none⟩ := by
    simp [VMResource.Read, hstate, hg2, statusError]
  refine ⟨by rw [hg1], by rw [hg2]; rfl, ?_, hread1, hread2, ?_, ?_⟩
  · rw [hg1, hg2]
    intro h
    injection h with h
    injection h with h
    exact hne h
  · rw [hread1, hread2]
    intro h
    injection h with h _
    have h := List.append_cancel_left h
    injection h with h _
    injection h with _ _ h
    have hlit : ("Unable to read VM, got error: VM not found" : String)
        = "Unable to read VM, got error: " ++ "VM not found" := by decide
    rw [hlit] at h
    exact hne (string_append_cancel_left _ _ _ h)
  · intro resp h
    rw [hg2] at h
    injection h with h
    rw [statusError_injective resp resp2 h]
    exact ⟨rfl, rfl⟩

/-- Witness for C8: the transport answers 404 in one world and 503 in another. -/
theorem GetVM_not_found_distinct_witness :
    (mockClient.GetVM statusRuntime "vm-1" 404).1 = .error ⟨"VM not found"⟩
    ∧ (mockClient.GetVM statusRuntime "vm-1" 503).1
        = .error ⟨"API returned status " ++ toString (503 : Int) ++ ": " ++ "detail"⟩
    ∧ (VMResource.Read statusRuntime mockClient
          ⟨[], { mockPlan with ID := .value "vm-1" }⟩ 404).value
        ≠ (VMResource.Read statusRuntime mockClient
          ⟨[], { mockPlan with ID := .value "vm-1" }⟩ 503).value :=
  have h := GetVM_not_found_distinct statusRuntime mockClient
    ⟨[], { mockPlan with ID := .value "vm-1" }⟩ 404 503 404 503
    ⟨404, "detail"⟩ ⟨503, "detail"⟩ rfl rfl rfl rfl rfl (by decide) (by decide)
  ⟨h.1, h.2.1, h.2.2.2.2.2.1⟩

/-! ## Field mutability and `VMResource.Update` -/

theorem specAttributes_names :
    specAttributes.map Attribute.Name
      = ["name", "vcpus", "memory_gb", "base_image", "root_disk_gb", "ssh_user",
         "ssh_public_key_file"] := by
  decide

theorem foldl_strictest_replacement (l : List Mutability) : ∀ init : Mutability,
    init = .RequiresReplacement ∨ Mutability.RequiresReplacement ∈ l →
    l.foldl Mutability.strictest init = .RequiresReplacement := by
  induction l with
  | nil =>
    intro init h
    simpa using h
  | cons x l ih =>
    intro init h
    rw [List.foldl_cons]
    apply ih
    rcases h with h | h
    · left
      subst h
      cases x <;> decide
    · rcases List.mem_cons.mp h with h | h
      · left
        subst h
        cases init <;> decide
      · exact Or.inr h

theorem foldl_strictest_noChange (l : List Mutability)
    (h : ∀ x ∈ l, x = Mutability.NoChange) :
    l.foldl Mutability.strictest .NoChange = .NoChange := by
  induction l with
  | nil => rfl
  | cons x l ih =>
    rw [List.foldl_cons, h x (List.mem_cons_self x l)]
    exact ih fun y hy => h y (List.mem_cons_of_mem x hy)

theorem sameSpec_iff_attrs (prior proposed : VMResourceModel) :
    sameSpec prior proposed ↔
      ∀ a ∈ specAttributes, prior.attr a.Name = proposed.attr a.Name := by
  have hs : specAttributes =
      [ ⟨"name", .string, true, false, false, [.RequiresReplace]⟩,
        ⟨"vcpus", .int64, true, false, false, [.RequiresReplace]⟩,
        ⟨"memory_gb", .int64, true, false, false, [.RequiresReplace]⟩,
        ⟨"base_image", .string, true, false, false, [.RequiresReplace]⟩,
        ⟨"root_disk_gb", .int64, true, false, false, [.RequiresReplace]⟩,
        ⟨"ssh_user", .string, false, true, false, [.RequiresReplace]⟩,
        ⟨"ssh_public_key_file", .string, false, true, false, [.RequiresReplace]⟩ ] := by
    decide
  rw [hs]
  simp [sameSpec, VMResourceModel.attr]

/-- C9: every spec attribute of the VM resource schema (name, vcpus, memory_gb,
base_image, root_disk_gb, ssh_user, ssh_public_key_file) is declared with the
`RequiresReplace` plan modifier, so none is updatable in place, and a proposed
spec that differs from the prior one in at least one of them is classified
`RequiresReplacement`. -/
theorem classify_requires_replacement (prior proposed : VMResourceModel)
    (hdiff : ¬ sameSpec prior proposed) :
    classify prior proposed = .RequiresReplacement
    ∧ (∀ a ∈ specAttributes, PlanModifier.RequiresReplace ∈ a.PlanModifiers
        ∧ attributePolicy a = .RequiresReplacement)
    ∧ (∀ a ∈ specAttributes, classifyAttribute prior proposed a ≠ .InPlaceUpdatable) := by
  have hpol : ∀ a ∈ specAttributes, PlanModifier.RequiresReplace ∈ a.PlanModifiers
      ∧ attributePolicy a = .RequiresReplacement := by
    decide
  refine ⟨?_, hpol, ?_⟩
  · apply foldl_strictest_replacement
    right
    rw [sameSpec_iff_attrs] at hdiff
    push_neg at hdiff
    obtain ⟨a, ha, hne⟩ := hdiff
    refine List.mem_map.mpr ⟨a, ha, ?_⟩
    rw [classifyAttribute, if_neg hne, (hpol a ha).2]
  · intro a ha
    unfold classifyAttribute
    split_ifs
    · decide
    · rw [(hpol a ha).2]
      decide

/-- Witness for C9: the proposed spec raises the vCPU count from 2 to 4. -/
theorem classify_requires_replacement_witness :
    ¬ sameSpec mockPlan { mockPlan with VCPUs := .value 4 }
    ∧ classify mockPlan { mockPlan with VCPUs := .value 4 } = .RequiresReplacement :=
  have hdiff : ¬ sameSpec mockPlan { mockPlan with VCPUs := .value 4 } := by
    simp [sameSpec, mockPlan]
  ⟨hdiff, (classify_requires_replacement mockPlan { mockPlan with VCPUs := .value 4 } hdiff).1⟩

/-- C10: when the proposed plan carries the same spec as the prior state, the
classification is `NoChange`, and `VMResource.Update` makes no remote call at
all (its trace is empty and the remote world is untouched) and writes the
proposed plan, unchanged, as the new state, adding no diagnostic. -/
theorem Update_no_remote_calls {σ : Type} (rt : Runtime σ) (c : APIClient)
    (req : UpdateRequest) (s : σ)
    (hsame : sameSpec req.State req.Plan)
    (hplan : HasError req.PlanDiags = false) :
    classify req.State req.Plan = .NoChange
    ∧ (VMResource.Update rt c req s).trace = []
    ∧ calls (VMResource.Update rt c req s).trace = []
    ∧ (VMResource.Update rt c req s).world = s
    ∧ (VMResource.Update rt c req s).value.State = some req.Plan
    ∧ (VMResource.Update rt c req s).value.Diagnostics = req.PlanDiags := by
  refine ⟨?_, ?_⟩
  · apply foldl_strictest_noChange
    intro x hx
    obtain ⟨a, ha, rfl⟩ := List.mem_map.mp hx
    rw [classifyAttribute, if_pos ((sameSpec_iff_attrs _ _).mp hsame a ha)]
  · simp [VMResource.Update, hplan]

/-- Witness for C10: an update whose plan repeats the spec of the prior state. -/
theorem Update_no_remote_calls_witness :
    classify { mockPlan with ID := .value "vm-1" } mockPlan = .NoChange
    ∧ (VMResource.Update (mockRuntime ⟨201, 1, 0, 200⟩) mockClient
        ⟨[], mockPlan, { mockPlan with ID := .value "vm-1" }⟩ 0).trace = []
    ∧ (VMResource.Update (mockRuntime ⟨201, 1, 0, 200⟩) mockClient
        ⟨[], mockPlan, { mockPlan with ID := .value "vm-1" }⟩ 0).value.State = some mockPlan :=
  have h := Update_no_remote_calls (mockRuntime ⟨201, 1, 0, 200⟩) mockClient
    ⟨[], mockPlan, { mockPlan with ID := .value "vm-1" }⟩ 0
    ⟨rfl, rfl, rfl, rfl, rfl, rfl, rfl⟩ rfl
  ⟨h.1, h.2.1, h.2.2.2.2.1⟩

/-! ## Sleeps of the wait loop -/

theorem sleeps_append (a b : List Event) : sleeps (a ++ b) = sleeps a ++ sleeps b := by
  simp [sleeps]

theorem sleeps_keyReadTrace (c : APIClient) (data : VMResourceModel) (key : Option String) :
    sleeps (keyReadTrace c data key) = [] := by
  cases key <;> simp [keyReadTrace, sleeps, Event.isSleep]

theorem sleeps_cleanupTrace (d : Option GoError) : sleeps (cleanupTrace d) = [] := by
  cases d <;> simp [cleanupTrace, sleeps, Event.isSleep]

theorem sleeps_pendingEvents (id : String) (M i : Nat) :
    sleeps (pendingEvents id M i) = if i < M - 1 then [.Sleep retryDelay] else [] := by
  unfold pendingEvents
  split_ifs <;> simp [sleeps, Event.isSleep]

theorem pendingTrace_succ (id : String) (M i n : Nat) :
    pendingTrace id M i (n + 1) = pendingEvents id M i ++ pendingTrace id M (i + 1) n := by
  simp [pendingTrace, List.range'_succ]

theorem pendingTrace_succ_last (id : String) (M i n : Nat) :
    pendingTrace id M i (n + 1) = pendingTrace id M i n ++ pendingEvents id M (i + n) := by
  simp [pendingTrace, List.range'_concat]

/-- Each of `n` pending iterations from index `i` sleeps once, as long as none
of them is the last iteration of the loop. -/
theorem sleeps_pendingTrace (id : String) (M : Nat) (n : Nat) : ∀ i : Nat, i + n ≤ M - 1 →
    sleeps (pendingTrace id M i n) = List.replicate n (.Sleep retryDelay) := by
  induction n with
  | zero => intro i _; simp [pendingTrace, sleeps]
  | succ n ih =>
    intro i h
    rw [pendingTrace_succ, sleeps_append, sleeps_pendingEvents, if_pos (by omega),
      ih (i + 1) (by omega)]
    rfl

theorem sleepScan_skip (e : Event) (tr : List Event) (hg : e.isGetVM = false)
    (hs : e.isSleep = false) : sleepScan (e :: tr) = sleepScan tr := by
  simp [sleepScan, hg, hs]

theorem sleepScan_keyReadTrace (c : APIClient) (data : VMResourceModel) (key : Option String)
    (tr : List Event) : sleepScan (keyReadTrace c data key ++ tr) = sleepScan tr := by
  cases key <;> simp [keyReadTrace, sleepScan, Event.isGetVM, Event.isSleep]

theorem sleepScan_cleanupTrace (d : Option GoError) : sleepScan (cleanupTrace d) = (0, []) := by
  cases d <;> simp [cleanupTrace, sleepScan, Event.isGetVM, Event.isSleep]

theorem sleepScan_pendingEvents (id : String) (M i : Nat) (tr : List Event) :
    sleepScan (pendingEvents id M i ++ tr)
      = (0, ((if i < M - 1 then 1 else 0) + (sleepScan tr).1) :: (sleepScan tr).2) := by
  unfold pendingEvents
  split_ifs <;> simp [sleepScan, Event.isGetVM, Event.isSleep, Nat.add_comm]

/-- The scan of `n` pending iterations followed by a trace that does not start
with sleeps: one entry per iteration, `1` unless it is the last of the loop. -/
theorem sleepScan_pendingTrace (id : String) (M : Nat) (tr : List Event)
    (htr : (sleepScan tr).1 = 0) (n : Nat) : ∀ i : Nat,
    sleepScan (pendingTrace id M i n ++ tr)
      = (0, (List.range' i n).map (fun j => if j < M - 1 then 1 else 0) ++ (sleepScan tr).2) := by
  induction n with
  | zero =>
    intro i
    simp only [pendingTrace, List.range'_zero, List.flatMap_nil, List.nil_append, List.map_nil]
    rw [← htr]
  | succ n ih =>
    intro i
    rw [pendingTrace_succ, List.append_assoc, sleepScan_pendingEvents, ih (i + 1)]
    simp [List.range'_succ]

theorem map_range'_sleeping (M : Nat) (n : Nat) : ∀ i : Nat, i + n ≤ M - 1 →
    (List.range' i n).map (fun j => if j < M - 1 then 1 else 0) = List.replicate n 1 := by
  induction n with
  | zero => intro i _; rfl
  | succ n ih =>
    intro i h
    rw [List.range'_succ, List.map_cons, ih (i + 1) (by omega), if_pos (by omega)]
    rfl

theorem map_range'_all (M : Nat) (hM : 1 ≤ M) :
    (List.range' 0 M).map (fun j => if j < M - 1 then 1 else 0)
      = List.replicate (M - 1) 1 ++ [0] := by
  obtain ⟨m, rfl⟩ : ∃ m, M = m + 1 := ⟨M - 1, by omega⟩
  rw [List.range'_concat, List.map_append, map_range'_sleeping (m + 1) m 0 (by omega)]
  simp

theorem sleeps_pendingTrace_all (id : String) (M : Nat) (hM : 1 ≤ M) :
    sleeps (pendingTrace id M 0 M) = List.replicate (M - 1) (.Sleep retryDelay) := by
  obtain ⟨m, rfl⟩ : ∃ m, M = m + 1 := ⟨M - 1, by omega⟩
  rw [pendingTrace_succ_last, sleeps_append, sleeps_pendingTrace id (m + 1) m 0 (by omega),
    sleeps_pendingEvents, if_neg (by omega)]
  simp

theorem sleeps_run (pre tail : List Event) (id : String) (M n : Nat)
    (hpre : sleeps pre = []) (htail : sleeps tail = []) :
    sleeps (pre ++ pendingTrace id M 0 n ++ tail) = sleeps (pendingTrace id M 0 n) := by
  rw [sleeps_append, sleeps_append, hpre, htail]
  simp

theorem sleepsAfterAttempts_run (pre tail : List Event) (id : String) (M n : Nat)
    (hpre : ∀ tr, sleepScan (pre ++ tr) = sleepScan tr) (htail : (sleepScan tail).1 = 0) :
    sleepsAfterAttempts (pre ++ pendingTrace id M 0 n ++ tail)
      = (List.range' 0 n).map (fun j => if j < M - 1 then 1 else 0) ++ (sleepScan tail).2 := by
  unfold sleepsAfterAttempts
  rw [List.append_assoc, hpre, sleepScan_pendingTrace id M tail htail n 0]

theorem sleeps_createEvents (c : APIClient) (data : VMResourceModel) (key : Option String)
    (l1 l2 : List (String × LogValue)) (r : CreateVMRequest) :
    sleeps (keyReadTrace c data key
      ++ [.Log .info "Creating VM" l1, .CreateVM r, .Log .trace "Created VM" l2]) = [] := by
  rw [sleeps_append, sleeps_keyReadTrace]
  simp [sleeps, Event.isSleep]

theorem sleepScan_createEvents (c : APIClient) (data : VMResourceModel) (key : Option String)
    (l1 l2 : List (String × LogValue)) (r : CreateVMRequest) (tr : List Event) :
    sleepScan (keyReadTrace c data key
      ++ [.Log .info "Creating VM" l1, .CreateVM r, .Log .trace "Created VM" l2] ++ tr)
      = sleepScan tr := by
  rw [List.append_assoc, sleepScan_keyReadTrace]
  simp [sleepScan, Event.isGetVM, Event.isSleep]

/-- C11: in the wait loop of `VMResource.Create` a sleep of one second
(`retryDelay`) follows a poll attempt exactly when that attempt succeeded
without an IP address and is not the 300th.  A run that becomes ready on
attempt `k` sleeps exactly `k - 1` times, once after each of the attempts
`1 .. k-1` and not after the ready attempt; a run that times out sleeps exactly
299 times, once after each of the attempts `1 .. 299` and not after the 300th;
a run whose attempt `j` fails sleeps once after each of the attempts
`1 .. j-1` and not after the failed one. -/
theorem Create_sleeps {σ : Type} (rt : Runtime σ) (c : APIClient)
    (req : CreateRequest) (s : σ)
    (hplan : HasError req.PlanDiags = false) (key : Option String)
    (hkey : sshPublicKeyOf rt c req.Plan = .ok key)
    (createResp : CreateVMResponse)
    (hcreate : (c.CreateVM rt (createReqOf req.Plan (sshUserOf c req.Plan) key) s).1
      = .ok createResp) :
    retryDelay = 1000000000
    ∧ (∀ (k : Nat) (vm : VM), 1 ≤ k → k ≤ 300 →
        (∀ j, j + 1 < k → ∃ vm0,
          pollAnswer rt c createResp.ID j
            (c.CreateVM rt (createReqOf req.Plan (sshUserOf c req.Plan) key) s).2 = .ok vm0
          ∧ vm0.IPAddress = "") →
        pollAnswer rt c createResp.ID (k - 1)
          (c.CreateVM rt (createReqOf req.Plan (sshUserOf c req.Plan) key) s).2 = .ok vm →
        vm.IPAddress ≠ "" →
        sleeps (VMResource.Create rt c req s).trace
            = List.replicate (k - 1) (Event.Sleep retryDelay)
        ∧ (sleeps (VMResource.Create rt c req s).trace).length = k - 1
        ∧ sleepsAfterAttempts (VMResource.Create rt c req s).trace
            = List.replicate (k - 1) 1 ++ [0])
    ∧ ((∀ j, j < 300 → ∃ vm0,
          pollAnswer rt c createResp.ID j
            (c.CreateVM rt (createReqOf req.Plan (sshUserOf c req.Plan) key) s).2 = .ok vm0
          ∧ vm0.IPAddress = "") →
        sleeps (VMResource.Create rt c req s).trace
            = List.replicate 299 (Event.Sleep retryDelay)
        ∧ (sleeps (VMResource.Create rt c req s).trace).length = 299
        ∧ sleepsAfterAttempts (VMResource.Create rt c req s).trace
            = List.replicate 299 1 ++ [0])
    ∧ (∀ (j : Nat) (err : GoError), 1 ≤ j → j ≤ 300 →
        (∀ i, i + 1 < j → ∃ vm0,
          pollAnswer rt c createResp.ID i
            (c.CreateVM rt (createReqOf req.Plan (sshUserOf c req.Plan) key) s).2 = .ok vm0
          ∧ vm0.IPAddress = "") →
        pollAnswer rt c createResp.ID (j - 1)
          (c.CreateVM rt (createReqOf req.Plan (sshUserOf c req.Plan) key) s).2 = .error err →
        sleeps (VMResource.Create rt c req s).trace
            = List.replicate (j - 1) (Event.Sleep retryDelay)
        ∧ sleepsAfterAttempts (VMResource.Create rt c req s).trace
            = List.replicate (j - 1) 1 ++ [0]) := by
  refine ⟨rfl, ?_, ?_, ?_⟩
  · intro k vm hk1 hk hpend hvm hip
    obtain ⟨n, rfl⟩ : ∃ n, k = n + 1 := ⟨k - 1, by omega⟩
    have hn : n ≤ maxRetries - 1 := by unfold maxRetries; omega
    have hrun := submit_acquired rt c req.Plan req.PlanDiags (keyReadTrace c req.Plan key)
      (createReqOf req.Plan (sshUserOf c req.Plan) key) s createResp hcreate n
      (by unfold maxRetries; omega) (fun j hj => hpend j (by omega)) vm hvm hip
    rw [Create_eq_submit rt c req s hplan key hkey, hrun]
    simp only [Nat.add_sub_cancel]
    have hs := sleeps_pendingTrace createResp.ID maxRetries n 0 (by omega)
    rw [sleeps_run _ _ _ _ _ (sleeps_createEvents _ _ _ _ _ _)
        (by simp [sleeps, Event.isSleep]),
      sleepsAfterAttempts_run _ _ _ _ _ (sleepScan_createEvents _ _ _ _ _ _)
        (by simp [sleepScan, Event.isGetVM, Event.isSleep]),
      hs, map_range'_sleeping maxRetries n 0 (by omega)]
    refine ⟨rfl, List.length_replicate _ _, ?_⟩
    simp [sleepScan, Event.isGetVM, Event.isSleep]
  · intro hpend
    have hrun := submit_timeout rt c req.Plan req.PlanDiags (keyReadTrace c req.Plan key)
      (createReqOf req.Plan (sshUserOf c req.Plan) key) s createResp hcreate hpend
    rw [Create_eq_submit rt c req s hplan key hkey, hrun]
    simp only [List.append_assoc
      (keyReadTrace c req.Plan key ++ _ ++ pendingTrace createResp.ID maxRetries 0 maxRetries)]
    have hM : 1 ≤ maxRetries := by unfold maxRetries; omega
    have htail : ∀ (l : List (String × LogValue)) (d : Option GoError),
        sleepScan ([Event.Log .warn "Attempting to delete VM due to timeout" l,
          Event.DeleteVM createResp.ID] ++ cleanupTrace d) = (0, []) := by
      intro l d
      simp [sleepScan, Event.isGetVM, Event.isSleep, sleepScan_cleanupTrace]
    rw [sleeps_run _ _ _ _ _ (sleeps_createEvents _ _ _ _ _ _)
        (by rw [sleeps_append, sleeps_cleanupTrace]; simp [sleeps, Event.isSleep]),
      sleepsAfterAttempts_run _ _ _ _ _ (sleepScan_createEvents _ _ _ _ _ _)
        (by rw [htail]),
      sleeps_pendingTrace_all createResp.ID maxRetries hM, map_range'_all maxRetries hM, htail]
    refine ⟨rfl, List.length_replicate _ _, ?_⟩
    rw [List.append_nil]
    rfl
  · intro j err hj1 hj hpend herr
    obtain ⟨n, rfl⟩ : ∃ n, j = n + 1 := ⟨j - 1, by omega⟩
    have hrun := submit_poll_failed rt c req.Plan req.PlanDiags (keyReadTrace c req.Plan key)
      (createReqOf req.Plan (sshUserOf c req.Plan) key) s createResp hcreate n
      (by unfold maxRetries; omega) (fun i hi => hpend i (by omega)) err herr
    rw [Create_eq_submit rt c req s hplan key hkey, hrun]
    simp only [Nat.add_sub_cancel]
    have hs := sleeps_pendingTrace createResp.ID maxRetries n 0 (by unfold maxRetries; omega)
    rw [sleeps_run _ _ _ _ _ (sleeps_createEvents _ _ _ _ _ _)
        (by simp [sleeps, Event.isSleep]),
      sleepsAfterAttempts_run _ _ _ _ _ (sleepScan_createEvents _ _ _ _ _ _)
        (by simp [sleepScan, Event.isGetVM, Event.isSleep]),
      hs, map_range'_sleeping maxRetries n 0 (by unfold maxRetries; omega)]
    refine ⟨rfl, ?_⟩
    simp [sleepScan, Event.isGetVM, Event.isSleep]

/-- Witness for C11: against the mock, a run that becomes ready on attempt 2
sleeps once, after attempt 1 only, and a run that never sees an IP address
sleeps 299 times. -/
theorem Create_sleeps_witness :
    (sleeps (VMResource.Create (mockRuntime ⟨201, 2, 0, 200⟩) mockClient
        ⟨[], mockPlan⟩ 0).trace).length = 1
    ∧ sleepsAfterAttempts (VMResource.Create (mockRuntime ⟨201, 2, 0, 200⟩) mockClient
        ⟨[], mockPlan⟩ 0).trace = [1, 0]
    ∧ (sleeps (VMResource.Create (mockRuntime ⟨201, 0, 0, 200⟩) mockClient
        ⟨[], mockPlan⟩ 0).trace).length = 299 :=
  have hready := (Create_sleeps (mockRuntime ⟨201, 2, 0, 200⟩) mockClient
    ⟨[], mockPlan⟩ 0 rfl none (mock_key _)
    ⟨"vm-1", "web", "pending"⟩ (by simp [mock_CreateVM])).2.1 2
    ⟨"vm-1", "web", "running", 2, 4096, "192.0.2.7"⟩ (by decide) (by decide)
    (by
      intro j hj
      obtain rfl : j = 0 := by omega
      exact ⟨⟨"vm-1", "web", "running", 2, 4096, ""⟩,
        by simp [mock_CreateVM, mock_pollAnswer], rfl⟩)
    (by simp [mock_CreateVM, mock_pollAnswer]) (by decide)
  have htimeout := (Create_sleeps (mockRuntime ⟨201, 0, 0, 200⟩) mockClient
    ⟨[], mockPlan⟩ 0 rfl none (mock_key _)
    ⟨"vm-1", "web", "pending"⟩ (by simp [mock_CreateVM])).2.2.1
    (by
      intro j _
      exact ⟨⟨"vm-1", "web", "running", 2, 4096, ""⟩,
        by simp [mock_CreateVM, mock_pollAnswer], rfl⟩)
  ⟨hready.2.1, hready.2.2, htimeout.2.1⟩

end Rcloud
